import Mathlib

/-! # A shallow embedding of the libvaraction evaluation core

This file embeds the evaluation core of the `libvaraction` library
(`varaction.c` / `varassign.c` / `varbitwise.c` / `varboolean.c` /
`varcompare.c` / `varmath.c` / `varstrings.c` / `vartimer.c` /
`vartypecast.c`) in Lean 4 and proves properties of the embedded code.

Modelling conventions:

* C `uint16_t` / `uint32_t` members are `Nat` with explicit reduction
  modulo `2^16` / `2^32` exactly where the C performs a conversion.
* The C `VarObject.val` union is modelled as a record holding all four
  members (`ui`, `ul`, `f`, `str`); each operation reads and writes the
  member that the C source names.  Reads of a member other than the one
  last written (type punning) therefore read the last value written to
  that member, which no theorem below depends on.
* IEEE-754 `float` payloads are carried as opaque 32-bit patterns
  (`Nat`); all host floating-point operations (`+`, `==`, casts,
  `atof`, `snprintf`, ...) are fields of a `CHost` parameter and are
  never given concrete semantics, since no claim depends on them.
* The external variable server (`VAR_Get` / `VAR_Set`), the OS timer
  facility (`timer_create` / `timer_settime` / `timer_delete`) and the
  C library string-formatting routines are external collaborators and
  are likewise parameters (`World`, `CHost`).
* Fallible C behaviour that has no defined result — integer division
  by zero, type-punned pointer dereference (a `Statement *` used as a
  `Variable *` or vice versa), reads past a string's content — is
  modelled as `Option.none`.  `malloc`/`realloc` are assumed to
  succeed (the `ENOMEM` paths are not modelled).
* The uninitialised local `rc` of `ProcessIF` is modelled as an extra
  parameter `g` threaded through the evaluator: it is the value the
  function returns on the paths that never assign `rc`.
* Operation codes and error numbers are the concrete values of the
  `VarOperation` enum in `varaction.h` and of the Linux `errno`
  constants.
-/

set_option linter.unusedVariables false

namespace VarAction

/-! ## Error codes (Linux errno values; EOK = 0 as in varserver) -/

def EOK : Int := 0
def ENOENT : Int := 2
def EBUSY : Int := 16
def ENOMEM : Int := 12
def EINVAL : Int := 22
def ENOTSUP : Int := 95

/-! ## Operation codes — the `VarOperation` enum from `varaction.h` -/

def VA_ILLEGAL : Nat := 0
def VA_ASSIGN : Nat := 1
def VA_MUL : Nat := 2
def VA_DIV : Nat := 3
def VA_ADD : Nat := 4
def VA_SUB : Nat := 5
def VA_BAND : Nat := 6
def VA_BOR : Nat := 7
def VA_XOR : Nat := 8
def VA_INC : Nat := 9
def VA_DEC : Nat := 10
def VA_LSHIFT : Nat := 11
def VA_RSHIFT : Nat := 12
def VA_AND : Nat := 13
def VA_OR : Nat := 14
def VA_NOT : Nat := 15
def VA_EQUALS : Nat := 16
def VA_NOTEQUALS : Nat := 17
def VA_GT : Nat := 18
def VA_LT : Nat := 19
def VA_GTE : Nat := 20
def VA_LTE : Nat := 21
def VA_AND_EQUALS : Nat := 22
def VA_OR_EQUALS : Nat := 23
def VA_XOR_EQUALS : Nat := 24
def VA_DIV_EQUALS : Nat := 25
def VA_TIMES_EQUALS : Nat := 26
def VA_PLUS_EQUALS : Nat := 27
def VA_MINUS_EQUALS : Nat := 28
def VA_SYSVAR : Nat := 29
def VA_TOFLOAT : Nat := 30
def VA_TOINT : Nat := 31
def VA_TOSHORT : Nat := 32
def VA_TOSTRING : Nat := 33
def VA_NUM : Nat := 34
def VA_FLOATNUM : Nat := 35
def VA_LOCALVAR : Nat := 36
def VA_STRING : Nat := 37
def VA_IF : Nat := 38
def VA_ELSE : Nat := 39
def VA_FLOAT : Nat := 40
def VA_INT : Nat := 41
def VA_SHORT : Nat := 42
def VA_CREATE_TICK : Nat := 43
def VA_CREATE_TIMER : Nat := 44
def VA_DELETE_TIMER : Nat := 45
def VA_ACTIVE_TIMER : Nat := 46
def VA_TIMER : Nat := 47
def VA_OP_MAX : Nat := 48

/-! invalid variable-server handle (`VAR_INVALID`) -/
def VAR_INVALID : Nat := 0

/-! `MAX_TIMERS` from `vartimer.c` -/
def MAX_TIMERS : Nat := 255

/-! ## Machine-integer helpers: conversions performed by C assignments -/

/-- conversion to `uint16_t` -/
def u16 (n : Nat) : Nat := n % 65536

/-- conversion to `uint32_t` -/
def u32 (n : Nat) : Nat := n % 4294967296

/-- C: `uint16_t` subtraction (wraps modulo `2^16`) -/
def sub16 (a b : Nat) : Nat := (((a : Int) - (b : Int)).emod 65536).toNat

/-- C: `uint32_t` subtraction (wraps modulo `2^32`) -/
def sub32 (a b : Nat) : Nat := (((a : Int) - (b : Int)).emod 4294967296).toNat

/-! ## The value model -/

/-- the `VarType` tag of a `VarObject` (varserver).  `invalid` stands for any
value of the C enum that is none of the four supported types (in particular
the zero value a `calloc`ed node starts with). -/
inductive VarType where
  | invalid
  | uint16
  | uint32
  | flt
  | str
deriving DecidableEq, Repr

/-- the `VarObject` of a node: type tag, length, and the `val` union.
The union is modelled as a record of all four members; `str = none` models a
NULL `char *`. -/
structure VarObject where
  type : VarType := .invalid
  len : Nat := 0
  ui : Nat := 0
  ul : Nat := 0
  f : Nat := 0
  str : Option String := none
deriving DecidableEq, Repr

/-- the scalar fields of a `Variable` node (`varaction.h`): everything except
the `left`/`right` tree links and the `pNext` symbol-chain link (which is
never traversed during evaluation). -/
structure VarData where
  operation : Nat := 0
  id : Option String := none
  isLocal : Bool := false
  assigned : Bool := false
  lvalue : Bool := false
  bufsize : Nat := 0
  hVar : Nat := 0
  obj : VarObject := {}
deriving DecidableEq, Repr

/-- A node of the compiled tree.  C manipulates `Variable *` and
`Statement *` pointers and casts between them (an `ELSE` node's children are
`Statement` lists stored in `Variable *` fields); the embedding therefore
uses a single pointer type:

* `null` — a NULL pointer;
* `var d left right` — a `Variable` node;
* `stmt pVariable script next` — a `Statement` list cell
  (`pVariable = null` models a NULL `pVariable` member). -/
inductive Node where
  | null
  | var (d : VarData) (left : Node) (right : Node)
  | stmt (pVariable : Node) (script : Option String) (next : Node)
deriving DecidableEq, Repr

/-- the `VarData` of a `var` node, if the pointer is a non-null `Variable *`.
A `stmt` node is NOT mapped here: dereferencing it as a `Variable *` is
type-punning and handled separately by each consumer. -/
def Node.varData : Node → Option VarData
  | .var d _ _ => some d
  | _ => none

/-- replace the `VarData` of a `var` node (in-place mutation through a
`Variable *`) -/
def Node.withData : Node → VarData → Node
  | .var _ l r, d => .var d l r
  | n, _ => n

/-! ## External collaborators -/

/-- Host C-library behaviour that the core calls but does not define:
IEEE-754 single-precision arithmetic and the numeric/string conversion
routines.  Everything is abstract; no claim depends on these fields. -/
structure CHost where
  fadd : Nat → Nat → Nat
  fsub : Nat → Nat → Nat
  fmul : Nat → Nat → Nat
  fdiv : Nat → Nat → Nat
  feq : Nat → Nat → Bool
  fgt : Nat → Nat → Bool
  flt : Nat → Nat → Bool
  fge : Nat → Nat → Bool
  fle : Nat → Nat → Bool
  fIsZero : Nat → Bool
  ofU16 : Nat → Nat
  ofU32 : Nat → Nat
  toShort : Nat → Int
  toInt : Nat → Int
  atof : String → Nat
  atoi : String → Int
  atol : String → Int
  fmtU16 : Nat → Option String → Nat → String
  fmtU32 : Nat → Option String → Nat → String
  fmtF : Nat → Option String → Nat → String

/-- The external variable store (`VAR_Get`/`VAR_Set`) and the OS timer
facility, with an abstract world state `σ`:

* `varGet s h` — `VAR_Get`: returns (code, object read, new world);
* `varSet s h o` — `VAR_Set`: returns (code, new world);
* `osTimerCreate s` — `timer_create`: returns (new handle, new world);
* `osTimerSettime s h is ins vs vns` — `timer_settime`;
* `osTimerDelete s h` — `timer_delete`: returns (0 on success or the
  `errno` value on failure, new world). -/
structure World (σ : Type) where
  varGet : σ → Nat → Int × VarObject × σ
  varSet : σ → Nat → VarObject → Int × σ
  osTimerCreate : σ → Nat × σ
  osTimerSettime : σ → Nat → Nat → Nat → Nat → Nat → σ
  osTimerDelete : σ → Nat → Int × σ

/-- the mutable process state threaded through evaluation: the external
world, the `timers[]` slot table and the `activeTimer` scalar of
`vartimer.c`. -/
structure EvalState (σ : Type) where
  ext : σ
  timers : Nat → Nat
  activeTimer : Nat

/-! ## String buffer subsystem (`varstrings.c`)

`malloc`/`realloc` are assumed to succeed; the `ENOMEM` branches are not
modelled.  A freshly `malloc`ed buffer has indeterminate content; it is
modelled as `some ("")` and every caller fully overwrites it before reading.
Executions in which a string's recorded length disagrees with the length of
its actual content are rejected as `none` (the C would read indeterminate
bytes). -/

/-- C: `AllocateString( Variable *pVariable, size_t len )` -/
def AllocateString (v : VarData) (len : Nat) : Int × VarData :=
  if v.obj.type = .str then
    -- bufsize = ( len < 32 ) ? 32 : len + 1
    let bufsize := if len < 32 then 32 else len + 1
    match v.obj.str with
    | some s =>
      if v.bufsize ≤ len then
        -- realloc the previous buffer (content preserved)
        (EOK, { v with bufsize := bufsize })
      else
        -- existing buffer is large enough
        (EOK, v)
    | none =>
      -- malloc a new buffer (content indeterminate until overwritten)
      (EOK, { v with bufsize := bufsize, obj := { v.obj with str := some ("") } })
  else
    (ENOTSUP, v)

/-- C: `AssignString( Variable *pResult, Variable *pLeft, Variable *pRight )`:
returns (code, updated result, updated left). -/
def AssignString (res ld rd : VarData) : Option (Int × VarData × VarData) :=
  if ld.obj.type = .str ∧ rd.obj.type = .str then
    let len := rd.obj.len
    let (rc, ld1) := AllocateString ld len
    if rc = EOK then
      -- memcpy( pLeft->obj.val.str, pRight->obj.val.str, len ) then NUL
      match rd.obj.str with
      | some s =>
        if s.length = len then
          let ld2 := { ld1 with obj := { ld1.obj with str := some s, len := len, type := .str } }
          let res2 := { res with
            obj := { res.obj with str := some s, len := len, type := .str },
            bufsize := ld2.bufsize }
          some (EOK, res2, ld2)
        else
          none  -- memcpy would read past the right operand's content
      | none =>
        if len = 0 then
          let ld2 := { ld1 with obj := { ld1.obj with str := some (""), len := 0, type := .str } }
          let res2 := { res with
            obj := { res.obj with str := some (""), len := 0, type := .str },
            bufsize := ld2.bufsize }
          some (EOK, res2, ld2)
        else
          none  -- memcpy from a NULL source
    else
      some (rc, res, ld)
  else
    some (ENOTSUP, res, ld)

/-- C: `AddString( Variable *pResult, Variable *pLeft, Variable *pRight )`:
concatenation into the result node; returns (code, updated result). -/
def AddString (res ld rd : VarData) : Option (Int × VarData) :=
  if ld.obj.type = .str ∧ rd.obj.type = .str then
    match ld.obj.str, rd.obj.str with
    | some ls, some rs =>
      let len1 := ld.obj.len
      let len2 := rd.obj.len
      let len := len1 + len2
      let res1 := { res with obj := { res.obj with type := .str } }
      let (rc, res2) := AllocateString res1 len
      if rc = EOK then
        if ls.length = len1 ∧ rs.length = len2 then
          some (EOK, { res2 with obj := { res2.obj with str := some (ls ++ rs), len := len } })
        else
          none  -- strcpy at offset len1 with mismatched content length
      else
        some (rc, res2)
    | _, _ => some (ENOTSUP, res)
  else
    some (ENOTSUP, res)

/-- C: `ConcatString( Variable *pResult, Variable *pLeft, Variable *pRight )`:
in-place append to the left operand; returns (code, updated result,
updated left). -/
def ConcatString (res ld rd : VarData) : Option (Int × VarData × VarData) :=
  if ld.obj.type = .str ∧ rd.obj.type = .str then
    match ld.obj.str, rd.obj.str with
    | some ls, some rs =>
      let len1 := ld.obj.len
      let len2 := rd.obj.len
      let len := len1 + len2
      let (rc, ld1) := AllocateString ld len
      if rc = EOK then
        if ls.length = len1 ∧ rs.length = len2 then
          let ld2 := { ld1 with obj := { ld1.obj with str := some (ls ++ rs), len := len } }
          let res2 := { res with
            obj := { res.obj with len := len, type := .str, str := some (ls ++ rs) },
            bufsize := ld2.bufsize }
          some (EOK, res2, ld2)
        else
          none  -- strcat with mismatched content length
      else
        some (rc, res, ld1)
    | _, _ => some (ENOTSUP, res, ld)
  else
    some (ENOTSUP, res, ld)

/-- C: `NewString( void *str )` (`vartypecast.c`): constant-string node
constructor.  Note: `bufsize` records `strlen(str)` although `strdup`
allocates `strlen(str)+1` bytes. -/
def NewString (s : String) : VarData :=
  { operation := VA_STRING,
    obj := { type := .str, len := s.length, str := some s },
    bufsize := s.length }

/-! ## Operand access shared by the operator handlers

Every binary handler starts with the same NULL checks on `pLeft`/`pRight`
and then dereferences both as `Variable *`.  `args2`/`args1` factor that
prologue: `inval` — a NULL operand (the C returns `EINVAL` without
dereferencing anything); `ub` — a non-null pointer that is really a
`Statement *` (dereferencing it as a `Variable *` is undefined);
`ok` — the dereferenced operand data. -/

inductive Args2 where
  | inval
  | ub
  | ok (ld rd : VarData)

def args2 : Node → Node → Args2
  | .var ld _ _, .var rd _ _ => .ok ld rd
  | .null, _ => .inval
  | _, .null => .inval
  | _, _ => .ub

inductive Args1 where
  | inval
  | ub
  | ok (ld : VarData)

def args1 : Node → Args1
  | .var ld _ _ => .ok ld
  | .null => .inval
  | .stmt _ _ _ => .ub

/-! helpers for the common result-store tail
`pResult->obj.val.X = v; pResult->obj.type = ...; pResult->obj.len = ...`
(the C conversion to the member's machine type is applied at the write) -/

def i2u16 (n : Int) : Nat := (n.emod 65536).toNat
def i2u32 (n : Int) : Nat := (n.emod 4294967296).toNat

def store16 (d : VarData) (v : Nat) : VarData :=
  { d with obj := { d.obj with ui := u16 v, type := .uint16, len := 2 } }

def store32 (d : VarData) (v : Nat) : VarData :=
  { d with obj := { d.obj with ul := u32 v, type := .uint32, len := 4 } }

def storeF (d : VarData) (v : Nat) : VarData :=
  { d with obj := { d.obj with f := v, type := .flt, len := 4 } }

def storeBool (d : VarData) (val : Bool) : VarData :=
  store16 d (if val then 1 else 0)

/-! ## Comparison operators (`varcompare.c`) -/

/-- C: `Equals`: `result = left == right`, stored as a 16-bit 0/1 value -/
def Equals (cm : CHost) (d : VarData) (l r : Node) : Option (Int × VarData) :=
  match args2 l r with
  | .inval => some (EINVAL, d)
  | .ub => none
  | .ok ld rd =>
    let res : Int × Bool :=
      match ld.obj.type with
      | .uint32 => (EOK, ld.obj.ul == rd.obj.ul)
      | .uint16 => (EOK, ld.obj.ui == rd.obj.ui)
      | .flt => (EOK, cm.feq ld.obj.f rd.obj.f)
      | .str =>
        match ld.obj.str, rd.obj.str with
        | none, none => (EOK, true)     -- both strings are empty
        | none, some _ => (EOK, false)  -- one empty, one not
        | some _, none => (EOK, false)
        | some a, some b => (EOK, a == b)  -- strcmp(a, b) == 0
      | .invalid => (ENOTSUP, false)
    if res.1 = EOK then some (EOK, storeBool d res.2) else some (res.1, d)

/-- C: `NotEquals`: performs the `Equals` evaluation; the intended inversion is
dead code — `if( pResult == EOK )` compares the result-node POINTER with 0
(false for the non-null result node), and its body
`pResult->obj.val.ui == true ? false : true;` is a side-effect-free
expression statement anyway.  So the returned result is the `Equals`
result, uninverted. -/
def NotEquals (cm : CHost) (d : VarData) (l r : Node) : Option (Int × VarData) :=
  Equals cm d l r

/-- C: `GreaterThan`: `result = left > right`, 16-bit 0/1 -/
def GreaterThan (cm : CHost) (d : VarData) (l r : Node) : Option (Int × VarData) :=
  match args2 l r with
  | .inval => some (EINVAL, d)
  | .ub => none
  | .ok ld rd =>
    let res : Int × Bool :=
      match ld.obj.type with
      | .uint32 => (EOK, rd.obj.ul < ld.obj.ul)
      | .uint16 => (EOK, rd.obj.ui < ld.obj.ui)
      | .flt => (EOK, cm.fgt ld.obj.f rd.obj.f)
      | .str =>
        match ld.obj.str, rd.obj.str with
        | some a, some b => (EOK, decide (b < a))  -- strcmp(a, b) > 0
        | some _, none => (EOK, true)
        | _, _ => (EOK, false)
      | .invalid => (ENOTSUP, false)
    if res.1 = EOK then some (EOK, storeBool d res.2) else some (res.1, d)

/-- C: `LessThan`: `result = left < right`, 16-bit 0/1 -/
def LessThan (cm : CHost) (d : VarData) (l r : Node) : Option (Int × VarData) :=
  match args2 l r with
  | .inval => some (EINVAL, d)
  | .ub => none
  | .ok ld rd =>
    let res : Int × Bool :=
      match ld.obj.type with
      | .uint32 => (EOK, ld.obj.ul < rd.obj.ul)
      | .uint16 => (EOK, ld.obj.ui < rd.obj.ui)
      | .flt => (EOK, cm.flt ld.obj.f rd.obj.f)
      | .str =>
        match ld.obj.str, rd.obj.str with
        | some a, some b => (EOK, decide (a < b))  -- strcmp(a, b) < 0
        | none, some _ => (EOK, true)
        | _, _ => (EOK, false)
      | .invalid => (ENOTSUP, false)
    if res.1 = EOK then some (EOK, storeBool d res.2) else some (res.1, d)

/-- C: `GreaterThanOrEqual`: `result = left >= right`, 16-bit 0/1 -/
def GreaterThanOrEqual (cm : CHost) (d : VarData) (l r : Node) :
    Option (Int × VarData) :=
  match args2 l r with
  | .inval => some (EINVAL, d)
  | .ub => none
  | .ok ld rd =>
    let res : Int × Bool :=
      match ld.obj.type with
      | .uint32 => (EOK, rd.obj.ul ≤ ld.obj.ul)
      | .uint16 => (EOK, rd.obj.ui ≤ ld.obj.ui)
      | .flt => (EOK, cm.fge ld.obj.f rd.obj.f)
      | .str =>
        match ld.obj.str, rd.obj.str with
        | none, none => (EOK, true)
        | some a, some b => (EOK, decide (b ≤ a))  -- strcmp(a, b) >= 0
        | some _, none => (EOK, true)
        | _, _ => (EOK, false)
      | .invalid => (ENOTSUP, false)
    if res.1 = EOK then some (EOK, storeBool d res.2) else some (res.1, d)

/-- C: `LessThanOrEqual`: `result = left <= right`, 16-bit 0/1 -/
def LessThanOrEqual (cm : CHost) (d : VarData) (l r : Node) :
    Option (Int × VarData) :=
  match args2 l r with
  | .inval => some (EINVAL, d)
  | .ub => none
  | .ok ld rd =>
    let res : Int × Bool :=
      match ld.obj.type with
      | .uint32 => (EOK, ld.obj.ul ≤ rd.obj.ul)
      | .uint16 => (EOK, ld.obj.ui ≤ rd.obj.ui)
      | .flt => (EOK, cm.fle ld.obj.f rd.obj.f)
      | .str =>
        match ld.obj.str, rd.obj.str with
        | none, none => (EOK, true)
        | some a, some b => (EOK, decide (a ≤ b))  -- strcmp(a, b) <= 0
        | none, some _ => (EOK, true)
        | _, _ => (EOK, false)
      | .invalid => (ENOTSUP, false)
    if res.1 = EOK then some (EOK, storeBool d res.2) else some (res.1, d)

/-! ## Boolean operators (`varboolean.c`) -/

/-- C: `And`: logical AND of two 16/32-bit arguments, 16-bit 0/1 result -/
def And (cm : CHost) (d : VarData) (l r : Node) : Option (Int × VarData) :=
  match args2 l r with
  | .inval => some (EINVAL, d)
  | .ub => none
  | .ok ld rd =>
    let res : Int × Bool :=
      match ld.obj.type with
      | .uint32 => (EOK, ld.obj.ul ≠ 0 ∧ rd.obj.ul ≠ 0)
      | .uint16 => (EOK, ld.obj.ui ≠ 0 ∧ rd.obj.ui ≠ 0)
      | _ => (ENOTSUP, false)
    if res.1 = EOK then some (EOK, storeBool d res.2) else some (res.1, d)

/-- C: `Or`: logical OR of two 16/32-bit arguments, 16-bit 0/1 result -/
def Or (cm : CHost) (d : VarData) (l r : Node) : Option (Int × VarData) :=
  match args2 l r with
  | .inval => some (EINVAL, d)
  | .ub => none
  | .ok ld rd =>
    let res : Int × Bool :=
      match ld.obj.type with
      | .uint32 => (EOK, ld.obj.ul ≠ 0 ∨ rd.obj.ul ≠ 0)
      | .uint16 => (EOK, ld.obj.ui ≠ 0 ∨ rd.obj.ui ≠ 0)
      | _ => (ENOTSUP, false)
    if res.1 = EOK then some (EOK, storeBool d res.2) else some (res.1, d)

/-- C: `Not`: logical NOT of the left argument, 16-bit 0/1 result -/
def Not (cm : CHost) (d : VarData) (l r : Node) : Option (Int × VarData) :=
  match args1 l with
  | .inval => some (EINVAL, d)
  | .ub => none
  | .ok ld =>
    let res : Int × Bool :=
      match ld.obj.type with
      | .uint32 => (EOK, ld.obj.ul == 0)
      | .uint16 => (EOK, ld.obj.ui == 0)
      | .flt => (EOK, cm.fIsZero ld.obj.f)
      | .str =>
        match ld.obj.str with
        | none => (EOK, true)
        | some s => (EOK, s.length == 0)
      | .invalid => (ENOTSUP, false)
    if res.1 = EOK then some (EOK, storeBool d res.2) else some (res.1, d)

/-! ## Bitwise operators (`varbitwise.c`) -/

/-- C: `Band`: `result = left & right` (integers only) -/
def Band (cm : CHost) (d : VarData) (l r : Node) : Option (Int × VarData) :=
  match args2 l r with
  | .inval => some (EINVAL, d)
  | .ub => none
  | .ok ld rd =>
    match ld.obj.type with
    | .uint32 => some (EOK, store32 d (ld.obj.ul &&& rd.obj.ul))
    | .uint16 => some (EOK, store16 d (ld.obj.ui &&& rd.obj.ui))
    | _ => some (ENOTSUP, d)

/-- C: `Bor`: `result = left | right` (integers only) -/
def Bor (cm : CHost) (d : VarData) (l r : Node) : Option (Int × VarData) :=
  match args2 l r with
  | .inval => some (EINVAL, d)
  | .ub => none
  | .ok ld rd =>
    match ld.obj.type with
    | .uint32 => some (EOK, store32 d (ld.obj.ul ||| rd.obj.ul))
    | .uint16 => some (EOK, store16 d (ld.obj.ui ||| rd.obj.ui))
    | _ => some (ENOTSUP, d)

/-- C: `Xor`: `result = left ^ right` (integers only) -/
def Xor (cm : CHost) (d : VarData) (l r : Node) : Option (Int × VarData) :=
  match args2 l r with
  | .inval => some (EINVAL, d)
  | .ub => none
  | .ok ld rd =>
    match ld.obj.type with
    | .uint32 => some (EOK, store32 d (ld.obj.ul ^^^ rd.obj.ul))
    | .uint16 => some (EOK, store16 d (ld.obj.ui ^^^ rd.obj.ui))
    | _ => some (ENOTSUP, d)

/-- C: `LShift`: `result = left << right` (integers only) -/
def LShift (cm : CHost) (d : VarData) (l r : Node) : Option (Int × VarData) :=
  match args2 l r with
  | .inval => some (EINVAL, d)
  | .ub => none
  | .ok ld rd =>
    match ld.obj.type with
    | .uint32 => some (EOK, store32 d (ld.obj.ul <<< rd.obj.ul))
    | .uint16 => some (EOK, store16 d (ld.obj.ui <<< rd.obj.ui))
    | _ => some (ENOTSUP, d)

/-- C: `RShift`: `result = left >> right` (integers only) -/
def RShift (cm : CHost) (d : VarData) (l r : Node) : Option (Int × VarData) :=
  match args2 l r with
  | .inval => some (EINVAL, d)
  | .ub => none
  | .ok ld rd =>
    match ld.obj.type with
    | .uint32 => some (EOK, store32 d (ld.obj.ul >>> rd.obj.ul))
    | .uint16 => some (EOK, store16 d (ld.obj.ui >>> rd.obj.ui))
    | _ => some (ENOTSUP, d)

/-! ## Arithmetic operators (`varmath.c`) -/

/-- C: `Multiply`: `result = left * right` -/
def Multiply (cm : CHost) (d : VarData) (l r : Node) : Option (Int × VarData) :=
  match args2 l r with
  | .inval => some (EINVAL, d)
  | .ub => none
  | .ok ld rd =>
    match ld.obj.type with
    | .uint32 => some (EOK, store32 d (ld.obj.ul * rd.obj.ul))
    | .uint16 => some (EOK, store16 d (ld.obj.ui * rd.obj.ui))
    | .flt => some (EOK, storeF d (cm.fmul ld.obj.f rd.obj.f))
    | _ => some (ENOTSUP, d)

/-- C: `Divide`: `result = left / right`.  The integer division is performed
unconditionally — there is no guard on a zero right operand; an integer
division by zero is undefined behaviour and is modelled as `none`. -/
def Divide (cm : CHost) (d : VarData) (l r : Node) : Option (Int × VarData) :=
  match args2 l r with
  | .inval => some (EINVAL, d)
  | .ub => none
  | .ok ld rd =>
    match ld.obj.type with
    | .uint32 =>
      if rd.obj.ul = 0 then none
      else some (EOK, store32 d (ld.obj.ul / rd.obj.ul))
    | .uint16 =>
      if rd.obj.ui = 0 then none
      else some (EOK, store16 d (ld.obj.ui / rd.obj.ui))
    | .flt => some (EOK, storeF d (cm.fdiv ld.obj.f rd.obj.f))
    | _ => some (ENOTSUP, d)

/-- C: `Add`: `result = left + right` (strings: concatenation into the result) -/
def Add (cm : CHost) (d : VarData) (l r : Node) : Option (Int × VarData) :=
  match args2 l r with
  | .inval => some (EINVAL, d)
  | .ub => none
  | .ok ld rd =>
    match ld.obj.type with
    | .uint32 => some (EOK, store32 d (ld.obj.ul + rd.obj.ul))
    | .uint16 => some (EOK, store16 d (ld.obj.ui + rd.obj.ui))
    | .flt => some (EOK, storeF d (cm.fadd ld.obj.f rd.obj.f))
    | .str => AddString d ld rd
    | .invalid => some (ENOTSUP, d)

/-- C: `Sub`: `result = left - right` -/
def Sub (cm : CHost) (d : VarData) (l r : Node) : Option (Int × VarData) :=
  match args2 l r with
  | .inval => some (EINVAL, d)
  | .ub => none
  | .ok ld rd =>
    match ld.obj.type with
    | .uint32 => some (EOK, store32 d (i2u32 ((ld.obj.ul : Int) - (rd.obj.ul : Int))))
    | .uint16 => some (EOK, store16 d (i2u16 ((ld.obj.ui : Int) - (rd.obj.ui : Int))))
    | .flt => some (EOK, storeF d (cm.fsub ld.obj.f rd.obj.f))
    | _ => some (ENOTSUP, d)

/-! ## Cast operators (`vartypecast.c`) -/

/-- C: `ToFloat`: `result = (float)left` (only `pResult`/`pLeft` are checked) -/
def ToFloat (cm : CHost) (d : VarData) (l r : Node) : Option (Int × VarData) :=
  match args1 l with
  | .inval => some (EINVAL, d)
  | .ub => none
  | .ok ld =>
    match ld.obj.type with
    | .uint32 => some (EOK, storeF d (cm.ofU32 ld.obj.ul))
    | .uint16 => some (EOK, storeF d (cm.ofU16 ld.obj.ui))
    | .flt => some (EOK, storeF d ld.obj.f)
    | .str =>
      match ld.obj.str with
      | some s => some (EOK, storeF d (cm.atof s))
      | none => some (EOK, storeF d 0)  -- 0.0f has the zero bit pattern
    | .invalid => some (ENOTSUP, d)

/-- C: `ToShort`: `result = (short)left` -/
def ToShort (cm : CHost) (d : VarData) (l r : Node) : Option (Int × VarData) :=
  match args1 l with
  | .inval => some (EINVAL, d)
  | .ub => none
  | .ok ld =>
    match ld.obj.type with
    | .uint32 => some (EOK, store16 d (i2u16 (Int.ofNat ld.obj.ul)))
    | .uint16 => some (EOK, store16 d ld.obj.ui)
    | .flt => some (EOK, store16 d (i2u16 (cm.toShort ld.obj.f)))
    | .str =>
      match ld.obj.str with
      | some s => some (EOK, store16 d (i2u16 (cm.atoi s)))
      | none => some (EOK, store16 d 0)
    | .invalid => some (ENOTSUP, d)

/-- C: `ToInt`: `result = (int)left` -/
def ToInt (cm : CHost) (d : VarData) (l r : Node) : Option (Int × VarData) :=
  match args1 l with
  | .inval => some (EINVAL, d)
  | .ub => none
  | .ok ld =>
    match ld.obj.type with
    | .uint32 => some (EOK, store32 d ld.obj.ul)
    | .uint16 => some (EOK, store32 d ld.obj.ui)
    | .flt => some (EOK, store32 d (i2u32 (cm.toInt ld.obj.f)))
    | .str =>
      match ld.obj.str with
      | some s => some (EOK, store32 d (i2u32 (cm.atol s)))
      | none => some (EOK, store32 d 0)
    | .invalid => some (ENOTSUP, d)

/-- C: `ToString`: `result = (string)left`, formatted with `snprintf`.  The
local `fmtspec` is only assigned when the right operand is a non-null
string-typed node; on every other path the C reads an uninitialised
pointer, which is modelled as `none`. -/
def ToString (cm : CHost) (d : VarData) (l r : Node) : Option (Int × VarData) :=
  match args1 l with
  | .inval => some (EINVAL, d)
  | .ub => none
  | .ok ld =>
    match r with
    | .var rd _ _ =>
      if rd.obj.type = .str then
        let fmtspec := rd.obj.str
        let d1 := { d with obj := { d.obj with type := .str } }
        let (rc, d2) := AllocateString d1 64
        match ld.obj.type with
        | .uint32 =>
          let s := cm.fmtU32 d2.bufsize fmtspec ld.obj.ul
          some (rc, { d2 with obj := { d2.obj with str := some s, len := s.length } })
        | .uint16 =>
          let s := cm.fmtU16 d2.bufsize fmtspec ld.obj.ui
          some (rc, { d2 with obj := { d2.obj with str := some s, len := s.length } })
        | .flt =>
          let s := cm.fmtF d2.bufsize fmtspec ld.obj.f
          some (rc, { d2 with obj := { d2.obj with str := some s, len := s.length } })
        | _ => some (ENOTSUP, d2)
      else
        none  -- fmtspec stays uninitialised
    | _ => none  -- fmtspec stays uninitialised

/-! ## Assignment operators (`varassign.c`)

These handlers mutate the left operand (and, for `Inc`/`Dec`, possibly the
right operand) in addition to the result node, and write a store-bound left
operand back to the external store, so they thread the `World` and the
`EvalState`. -/

variable {σ : Type}

/-- the full outcome of an operator handler: return code, updated result
node data, updated children, updated process state -/
structure OpOut (σ : Type) where
  code : Int
  d : VarData
  left : Node
  right : Node
  st : EvalState σ

/-- the write-back tail shared by the assignment handlers:
`if (result == EOK) { if (pLeft->operation == VA_SYSVAR) result = VAR_Set(...); }` -/
def setSysvar (W : World σ) (st : EvalState σ) (result : Int) (ld : VarData) :
    Int × EvalState σ :=
  if result = EOK ∧ ld.operation = VA_SYSVAR then
    let (rc, w2) := W.varSet st.ext ld.hVar ld.obj
    (rc, { st with ext := w2 })
  else
    (result, st)

/-- C: `Assign`: `result <= left <= right`; a sysvar left operand is written
back via `VAR_Set`. -/
def Assign (cm : CHost) (W : World σ) (st : EvalState σ) (d : VarData)
    (l r : Node) : Option (OpOut σ) :=
  match args2 l r with
  | .inval => some ⟨EINVAL, d, l, r, st⟩
  | .ub => none
  | .ok ld rd =>
    let step : Option (Int × VarData × VarData) :=
      match ld.obj.type with
      | .uint32 =>
        some (EOK,
          { d with obj := { d.obj with ul := rd.obj.ul, type := .uint32, len := 4 } },
          { ld with obj := { ld.obj with ul := rd.obj.ul } })
      | .uint16 =>
        some (EOK,
          { d with obj := { d.obj with ui := rd.obj.ui, type := .uint16, len := 2 } },
          { ld with obj := { ld.obj with ui := rd.obj.ui } })
      | .flt =>
        some (EOK,
          { d with obj := { d.obj with f := rd.obj.f, type := .flt, len := 4 } },
          { ld with obj := { ld.obj with f := rd.obj.f } })
      | .str => AssignString d ld rd
      | .invalid => some (ENOTSUP, d, ld)
    match step with
    | none => none
    | some (result, d1, ld1) =>
      let (result2, st2) := setSysvar W st result ld1
      some ⟨result2, d1, l.withData ld1, r, st2⟩

/-- C: `PlusEquals`: `result <= left <= left + right` (strings: in-place
append); a sysvar left operand is written back via `VAR_Set`. -/
def PlusEquals (cm : CHost) (W : World σ) (st : EvalState σ) (d : VarData)
    (l r : Node) : Option (OpOut σ) :=
  match args2 l r with
  | .inval => some ⟨EINVAL, d, l, r, st⟩
  | .ub => none
  | .ok ld rd =>
    let step : Option (Int × VarData × VarData) :=
      match ld.obj.type with
      | .uint32 =>
        let v := u32 (ld.obj.ul + rd.obj.ul)
        some (EOK,
          { d with obj := { d.obj with ul := v, type := .uint32, len := 4 } },
          { ld with obj := { ld.obj with ul := v } })
      | .uint16 =>
        let v := u16 (ld.obj.ui + rd.obj.ui)
        some (EOK,
          { d with obj := { d.obj with ui := v, type := .uint16, len := 2 } },
          { ld with obj := { ld.obj with ui := v } })
      | .flt =>
        let v := cm.fadd ld.obj.f rd.obj.f
        some (EOK,
          { d with obj := { d.obj with f := v, type := .flt, len := 4 } },
          { ld with obj := { ld.obj with f := v } })
      | .str => ConcatString d ld rd
      | .invalid => some (ENOTSUP, d, ld)
    match step with
    | none => none
    | some (result, d1, ld1) =>
      let (result2, st2) := setSysvar W st result ld1
      some ⟨result2, d1, l.withData ld1, r, st2⟩

/-- C: `MinusEquals`: `result <= left <= left - right`; a sysvar left operand
is written back via `VAR_Set`. -/
def MinusEquals (cm : CHost) (W : World σ) (st : EvalState σ) (d : VarData)
    (l r : Node) : Option (OpOut σ) :=
  match args2 l r with
  | .inval => some ⟨EINVAL, d, l, r, st⟩
  | .ub => none
  | .ok ld rd =>
    let step : Option (Int × VarData × VarData) :=
      match ld.obj.type with
      | .uint32 =>
        let v := sub32 ld.obj.ul rd.obj.ul
        some (EOK,
          { d with obj := { d.obj with ul := v, type := .uint32, len := 4 } },
          { ld with obj := { ld.obj with ul := v } })
      | .uint16 =>
        let v := sub16 ld.obj.ui rd.obj.ui
        some (EOK,
          { d with obj := { d.obj with ui := v, type := .uint16, len := 2 } },
          { ld with obj := { ld.obj with ui := v } })
      | .flt =>
        let v := cm.fsub ld.obj.f rd.obj.f
        some (EOK,
          { d with obj := { d.obj with f := v, type := .flt, len := 4 } },
          { ld with obj := { ld.obj with f := v } })
      | _ => some (ENOTSUP, d, ld)
    match step with
    | none => none
    | some (result, d1, ld1) =>
      let (result2, st2) := setSysvar W st result ld1
      some ⟨result2, d1, l.withData ld1, r, st2⟩

/-- C: `TimesEquals`: `result <= left <= left * right`; a sysvar left operand
is written back via `VAR_Set`. -/
def TimesEquals (cm : CHost) (W : World σ) (st : EvalState σ) (d : VarData)
    (l r : Node) : Option (OpOut σ) :=
  match args2 l r with
  | .inval => some ⟨EINVAL, d, l, r, st⟩
  | .ub => none
  | .ok ld rd =>
    let step : Option (Int × VarData × VarData) :=
      match ld.obj.type with
      | .uint32 =>
        let v := u32 (ld.obj.ul * rd.obj.ul)
        some (EOK,
          { d with obj := { d.obj with ul := v, type := .uint32, len := 4 } },
          { ld with obj := { ld.obj with ul := v } })
      | .uint16 =>
        let v := u16 (ld.obj.ui * rd.obj.ui)
        some (EOK,
          { d with obj := { d.obj with ui := v, type := .uint16, len := 2 } },
          { ld with obj := { ld.obj with ui := v } })
      | .flt =>
        let v := cm.fmul ld.obj.f rd.obj.f
        some (EOK,
          { d with obj := { d.obj with f := v, type := .flt, len := 4 } },
          { ld with obj := { ld.obj with f := v } })
      | _ => some (ENOTSUP, d, ld)
    match step with
    | none => none
    | some (result, d1, ld1) =>
      let (result2, st2) := setSysvar W st result ld1
      some ⟨result2, d1, l.withData ld1, r, st2⟩

/-- C: `DivEquals`: `result <= left <= left / right`; the integer division is
performed unconditionally (division by zero is undefined behaviour,
modelled as `none`); a sysvar left operand is written back via
`VAR_Set`. -/
def DivEquals (cm : CHost) (W : World σ) (st : EvalState σ) (d : VarData)
    (l r : Node) : Option (OpOut σ) :=
  match args2 l r with
  | .inval => some ⟨EINVAL, d, l, r, st⟩
  | .ub => none
  | .ok ld rd =>
    let step : Option (Int × VarData × VarData) :=
      match ld.obj.type with
      | .uint32 =>
        if rd.obj.ul = 0 then none
        else
          let v := ld.obj.ul / rd.obj.ul
          some (EOK,
            { d with obj := { d.obj with ul := v, type := .uint32, len := 4 } },
            { ld with obj := { ld.obj with ul := v } })
      | .uint16 =>
        if rd.obj.ui = 0 then none
        else
          let v := ld.obj.ui / rd.obj.ui
          some (EOK,
            { d with obj := { d.obj with ui := v, type := .uint16, len := 2 } },
            { ld with obj := { ld.obj with ui := v } })
      | .flt =>
        let v := cm.fdiv ld.obj.f rd.obj.f
        some (EOK,
          { d with obj := { d.obj with f := v, type := .flt, len := 4 } },
          { ld with obj := { ld.obj with f := v } })
      | _ => some (ENOTSUP, d, ld)
    match step with
    | none => none
    | some (result, d1, ld1) =>
      let (result2, st2) := setSysvar W st result ld1
      some ⟨result2, d1, l.withData ld1, r, st2⟩

/-- C: `AndEquals`: `result <= left <= left & right` (integers only); a sysvar
left operand is written back via `VAR_Set`. -/
def AndEquals (cm : CHost) (W : World σ) (st : EvalState σ) (d : VarData)
    (l r : Node) : Option (OpOut σ) :=
  match args2 l r with
  | .inval => some ⟨EINVAL, d, l, r, st⟩
  | .ub => none
  | .ok ld rd =>
    let step : Option (Int × VarData × VarData) :=
      match ld.obj.type with
      | .uint32 =>
        let v := ld.obj.ul &&& rd.obj.ul
        some (EOK,
          { d with obj := { d.obj with ul := v, type := .uint32, len := 4 } },
          { ld with obj := { ld.obj with ul := v } })
      | .uint16 =>
        let v := ld.obj.ui &&& rd.obj.ui
        some (EOK,
          { d with obj := { d.obj with ui := v, type := .uint16, len := 2 } },
          { ld with obj := { ld.obj with ui := v } })
      | _ => some (ENOTSUP, d, ld)
    match step with
    | none => none
    | some (result, d1, ld1) =>
      let (result2, st2) := setSysvar W st result ld1
      some ⟨result2, d1, l.withData ld1, r, st2⟩

/-- C: `OrEquals`: `result <= left <= left | right` (integers only); a sysvar
left operand is written back via `VAR_Set`.  NOTE: this function exists in
`varassign.c` but `InitVarAction` never installs it — see `vaOp`. -/
def OrEquals (cm : CHost) (W : World σ) (st : EvalState σ) (d : VarData)
    (l r : Node) : Option (OpOut σ) :=
  match args2 l r with
  | .inval => some ⟨EINVAL, d, l, r, st⟩
  | .ub => none
  | .ok ld rd =>
    let step : Option (Int × VarData × VarData) :=
      match ld.obj.type with
      | .uint32 =>
        let v := ld.obj.ul ||| rd.obj.ul
        some (EOK,
          { d with obj := { d.obj with ul := v, type := .uint32, len := 4 } },
          { ld with obj := { ld.obj with ul := v } })
      | .uint16 =>
        let v := ld.obj.ui ||| rd.obj.ui
        some (EOK,
          { d with obj := { d.obj with ui := v, type := .uint16, len := 2 } },
          { ld with obj := { ld.obj with ui := v } })
      | _ => some (ENOTSUP, d, ld)
    match step with
    | none => none
    | some (result, d1, ld1) =>
      let (result2, st2) := setSysvar W st result ld1
      some ⟨result2, d1, l.withData ld1, r, st2⟩

/-- C: `XorEquals`: `result <= left <= left ^ right` (integers only); a sysvar
left operand is written back via `VAR_Set`. -/
def XorEquals (cm : CHost) (W : World σ) (st : EvalState σ) (d : VarData)
    (l r : Node) : Option (OpOut σ) :=
  match args2 l r with
  | .inval => some ⟨EINVAL, d, l, r, st⟩
  | .ub => none
  | .ok ld rd =>
    let step : Option (Int × VarData × VarData) :=
      match ld.obj.type with
      | .uint32 =>
        let v := ld.obj.ul ^^^ rd.obj.ul
        some (EOK,
          { d with obj := { d.obj with ul := v, type := .uint32, len := 4 } },
          { ld with obj := { ld.obj with ul := v } })
      | .uint16 =>
        let v := ld.obj.ui ^^^ rd.obj.ui
        some (EOK,
          { d with obj := { d.obj with ui := v, type := .uint16, len := 2 } },
          { ld with obj := { ld.obj with ui := v } })
      | _ => some (ENOTSUP, d, ld)
    match step with
    | none => none
    | some (result, d1, ld1) =>
      let (result2, st2) := setSysvar W st result ld1
      some ⟨result2, d1, l.withData ld1, r, st2⟩

/-- C: `Inc`: post-increment `result = left++` when a left operand is present,
otherwise pre-increment `result = ++right`.  Only the `val` member of the
result node is written (type and length are left untouched).  A sysvar
operand is written back via `VAR_Set`. -/
def Inc (cm : CHost) (W : World σ) (st : EvalState σ) (d : VarData)
    (l r : Node) : Option (OpOut σ) :=
  match l with
  | .var ld ll lr =>
    -- post increment
    let step : Option (Int × VarData × VarData) :=
      match ld.obj.type with
      | .uint32 =>
        some (EOK,
          { d with obj := { d.obj with ul := ld.obj.ul } },
          { ld with obj := { ld.obj with ul := u32 (ld.obj.ul + 1) } })
      | .uint16 =>
        some (EOK,
          { d with obj := { d.obj with ui := ld.obj.ui } },
          { ld with obj := { ld.obj with ui := u16 (ld.obj.ui + 1) } })
      | _ => some (ENOTSUP, d, ld)
    match step with
    | none => none
    | some (result, d1, ld1) =>
      let (result2, st2) := setSysvar W st result ld1
      some ⟨result2, d1, (Node.var ld ll lr).withData ld1, r, st2⟩
  | .stmt _ _ _ => none
  | .null =>
    match r with
    | .var rd rl rr =>
      -- pre increment
      let step : Option (Int × VarData × VarData) :=
        match rd.obj.type with
        | .uint32 =>
          let v := u32 (rd.obj.ul + 1)
          some (EOK,
            { d with obj := { d.obj with ul := v } },
            { rd with obj := { rd.obj with ul := v } })
        | .uint16 =>
          let v := u16 (rd.obj.ui + 1)
          some (EOK,
            { d with obj := { d.obj with ui := v } },
            { rd with obj := { rd.obj with ui := v } })
        | _ => some (ENOTSUP, d, rd)
      match step with
      | none => none
      | some (result, d1, rd1) =>
        let (result2, st2) := setSysvar W st result rd1
        some ⟨result2, d1, .null, (Node.var rd rl rr).withData rd1, st2⟩
    | .stmt _ _ _ => none
    | .null => some ⟨EINVAL, d, l, r, st⟩  -- both operands NULL

/-- C: `Dec`: post-decrement `result = left--` when a left operand is present,
otherwise pre-decrement `result = --right`.  Only the `val` member of the
result node is written.  A sysvar operand is written back via `VAR_Set`. -/
def Dec (cm : CHost) (W : World σ) (st : EvalState σ) (d : VarData)
    (l r : Node) : Option (OpOut σ) :=
  match l with
  | .var ld ll lr =>
    -- post decrement
    let step : Option (Int × VarData × VarData) :=
      match ld.obj.type with
      | .uint32 =>
        some (EOK,
          { d with obj := { d.obj with ul := ld.obj.ul } },
          { ld with obj := { ld.obj with ul := sub32 ld.obj.ul 1 } })
      | .uint16 =>
        some (EOK,
          { d with obj := { d.obj with ui := ld.obj.ui } },
          { ld with obj := { ld.obj with ui := sub16 ld.obj.ui 1 } })
      | _ => some (ENOTSUP, d, ld)
    match step with
    | none => none
    | some (result, d1, ld1) =>
      let (result2, st2) := setSysvar W st result ld1
      some ⟨result2, d1, (Node.var ld ll lr).withData ld1, r, st2⟩
  | .stmt _ _ _ => none
  | .null =>
    match r with
    | .var rd rl rr =>
      -- pre decrement
      let step : Option (Int × VarData × VarData) :=
        match rd.obj.type with
        | .uint32 =>
          let v := sub32 rd.obj.ul 1
          some (EOK,
            { d with obj := { d.obj with ul := v } },
            { rd with obj := { rd.obj with ul := v } })
        | .uint16 =>
          let v := sub16 rd.obj.ui 1
          some (EOK,
            { d with obj := { d.obj with ui := v } },
            { rd with obj := { rd.obj with ui := v } })
        | _ => some (ENOTSUP, d, rd)
      match step with
      | none => none
      | some (result, d1, rd1) =>
        let (result2, st2) := setSysvar W st result rd1
        some ⟨result2, d1, .null, (Node.var rd rl rr).withData rd1, st2⟩
    | .stmt _ _ _ => none
    | .null => some ⟨EINVAL, d, l, r, st⟩

/-! ## Sysvar access and the placeholder handlers (`varaction.c`) -/

/-- C: `GetVar`: fetch a sysvar's value from the store unless the node is an
l-value (an assignment destination skips the read-before-write).  The
object returned by `VAR_Get` replaces the node's object together with the
returned code (what the store leaves in the object on failure is
store-defined). -/
def GetVar (cm : CHost) (W : World σ) (st : EvalState σ) (d : VarData)
    (l r : Node) : Option (Int × VarData × EvalState σ) :=
  if d.hVar ≠ VAR_INVALID ∧ d.operation = VA_SYSVAR then
    if d.lvalue = false then
      let (rc, o, w2) := W.varGet st.ext d.hVar
      some (rc, { d with obj := o }, { st with ext := w2 })
    else
      -- no need to get an l-value sysvar that we are about to write
      some (EOK, d, st)
  else
    some (EINVAL, d, st)

/-- C: `Unsupported`: placeholder handler for unsupported operation codes;
reports and fails with `ENOTSUP`. -/
def Unsupported (cm : CHost) (d : VarData) (l r : Node) : Option (Int × VarData) :=
  some (ENOTSUP, d)

/-- C: `NOP`: placeholder handler for constants and other non-operations;
succeeds without side effect. -/
def NOP (cm : CHost) (d : VarData) (l r : Node) : Option (Int × VarData) :=
  some (EOK, d)

/-! ## Timer operators (`vartimer.c`) -/

/-- C: `VADeleteTimer`: delete the timer registered under the id given by the
left operand.  An id outside `(0, MAX_TIMERS)` is `ENOENT`; an in-range id
hands the stored handle (`0` for an empty slot) to `timer_delete` and
returns `EOK` on success or the reported `errno` on failure.  The 16-bit
result value is 1 on success and 0 on failure.  The slot itself is never
cleared. -/
def VADeleteTimer (cm : CHost) (W : World σ) (st : EvalState σ) (d : VarData)
    (l r : Node) : Option (Int × VarData × EvalState σ) :=
  match l with
  | .var ld _ _ =>
    let id := ld.obj.ui
    let (result, st1) :=
      if 0 < id ∧ id < MAX_TIMERS then
        let timerID := st.timers id
        let (e, w2) := W.osTimerDelete st.ext timerID
        ((if e = 0 then EOK else e), { st with ext := w2 })
      else
        (ENOENT, st)
    some (result,
      { d with obj := { d.obj with ui := (if result = EOK then 1 else 0),
                                   type := .uint16, len := 2 } },
      st1)
  | .null => some (EINVAL, d, st)
  | .stmt _ _ _ => none

/-- C: `VACreateTimer`: create a one-shot timer under the id given by the left
operand, with the millisecond timeout given by the right operand.  An
already-registered id is deleted first (note that the inner
`VADeleteTimer` call writes the result node too, before it is
overwritten).  The created OS handle is stored in the slot; the timer is
armed with zero interval. -/
def VACreateTimer (cm : CHost) (W : World σ) (st : EvalState σ) (d : VarData)
    (l r : Node) : Option (Int × VarData × EvalState σ) :=
  match args2 l r with
  | .inval => some (EINVAL, d, st)
  | .ub => none
  | .ok ld rd =>
    let id := ld.obj.ui
    let timeoutms := rd.obj.ul
    let secs := timeoutms / 1000
    let msecs := timeoutms % 1000
    let (result, d1, st1) :=
      if 0 < id ∧ id < MAX_TIMERS then
        let (da, sta) :=
          if st.timers id ≠ 0 then
            match VADeleteTimer cm W st d l r with
            | some (_, da, sta) => (da, sta)
            | none => (d, st)  -- unreachable: l is a var node here
          else
            (d, st)
        let (h, w2) := W.osTimerCreate sta.ext
        let stb := { sta with ext := w2, timers := fun i => if i = id then h else sta.timers i }
        let w3 := W.osTimerSettime stb.ext h 0 0 secs (msecs * 1000000)
        (EOK, da, { stb with ext := w3 })
      else
        (ENOENT, d, st)
    some (result,
      { d1 with obj := { d1.obj with ui := (if result = EOK then 1 else 0),
                                     type := .uint16, len := 2 } },
      st1)

/-- C: `VACreateTick`: like `VACreateTimer` but the OS timer repeats with the
requested period as its interval. -/
def VACreateTick (cm : CHost) (W : World σ) (st : EvalState σ) (d : VarData)
    (l r : Node) : Option (Int × VarData × EvalState σ) :=
  match args2 l r with
  | .inval => some (EINVAL, d, st)
  | .ub => none
  | .ok ld rd =>
    let id := ld.obj.ui
    let timeoutms := rd.obj.ul
    let secs := timeoutms / 1000
    let msecs := timeoutms % 1000
    let (result, d1, st1) :=
      if 0 < id ∧ id < MAX_TIMERS then
        let (da, sta) :=
          if st.timers id ≠ 0 then
            match VADeleteTimer cm W st d l r with
            | some (_, da, sta) => (da, sta)
            | none => (d, st)  -- unreachable: l is a var node here
          else
            (d, st)
        let (h, w2) := W.osTimerCreate sta.ext
        let stb := { sta with ext := w2, timers := fun i => if i = id then h else sta.timers i }
        let w3 := W.osTimerSettime stb.ext h secs (msecs * 1000000) secs
                    (msecs * 1000000)
        (EOK, da, { stb with ext := w3 })
      else
        (ENOENT, d, st)
    some (result,
      { d1 with obj := { d1.obj with ui := (if result = EOK then 1 else 0),
                                     type := .uint16, len := 2 } },
      st1)

/-- C: `VAGetActiveTimer`: store the active (most recently fired) timer id in
the 16-bit result value. -/
def VAGetActiveTimer (cm : CHost) (st : EvalState σ) (d : VarData)
    (l r : Node) : Option (Int × VarData) :=
  some (EOK,
    { d with obj := { d.obj with ui := st.activeTimer, type := .uint16, len := 2 } })

/-- C: `VASetActiveTimer`: record the id of the timer that just fired
(0 = none); last write wins. -/
def VASetActiveTimer (st : EvalState σ) (id : Nat) : EvalState σ :=
  { st with activeTimer := u16 id }

/-! ## Operator dispatch (`InitVarAction` in `varaction.c`) -/

/-- the identity of a handler function installed in the `va_op` dispatch
table.  `hOrEquals` is listed because the `OrEquals` function exists in
`varassign.c`, although `InitVarAction` never installs it. -/
inductive HOp where
  | hAssign
  | hMultiply
  | hDivide
  | hAdd
  | hSub
  | hBand
  | hBor
  | hXor
  | hInc
  | hDec
  | hLShift
  | hRShift
  | hAnd
  | hOr
  | hNot
  | hEquals
  | hNotEquals
  | hGreaterThan
  | hLessThan
  | hGreaterThanOrEqual
  | hLessThanOrEqual
  | hAndEquals
  | hOrEquals
  | hXorEquals
  | hDivEquals
  | hTimesEquals
  | hPlusEquals
  | hMinusEquals
  | hGetVar
  | hToFloat
  | hToString
  | hToShort
  | hToInt
  | hNOP
  | hVACreateTick
  | hVACreateTimer
  | hVADeleteTimer
  | hVAGetActiveTimer
  | hUnsupported
deriving DecidableEq, Repr

/-- the `va_op` dispatch table as built by `InitVarAction`: every slot is
first initialised to `Unsupported`, then the specific handlers are
installed.  The line for `VA_OR_EQUALS` reproduces the source verbatim:
it installs `AndEquals`, not `OrEquals`. -/
def vaOp (op : Nat) : HOp :=
  if op = VA_ASSIGN then .hAssign
  else if op = VA_MUL then .hMultiply
  else if op = VA_DIV then .hDivide
  else if op = VA_ADD then .hAdd
  else if op = VA_SUB then .hSub
  else if op = VA_BAND then .hBand
  else if op = VA_BOR then .hBor
  else if op = VA_XOR then .hXor
  else if op = VA_INC then .hInc
  else if op = VA_DEC then .hDec
  else if op = VA_LSHIFT then .hLShift
  else if op = VA_RSHIFT then .hRShift
  else if op = VA_AND then .hAnd
  else if op = VA_OR then .hOr
  else if op = VA_NOT then .hNot
  else if op = VA_EQUALS then .hEquals
  else if op = VA_NOTEQUALS then .hNotEquals
  else if op = VA_GT then .hGreaterThan
  else if op = VA_LT then .hLessThan
  else if op = VA_GTE then .hGreaterThanOrEqual
  else if op = VA_LTE then .hLessThanOrEqual
  else if op = VA_AND_EQUALS then .hAndEquals
  else if op = VA_OR_EQUALS then .hAndEquals  -- va_op[VA_OR_EQUALS] = AndEquals;
  else if op = VA_XOR_EQUALS then .hXorEquals
  else if op = VA_DIV_EQUALS then .hDivEquals
  else if op = VA_TIMES_EQUALS then .hTimesEquals
  else if op = VA_PLUS_EQUALS then .hPlusEquals
  else if op = VA_MINUS_EQUALS then .hMinusEquals
  else if op = VA_SYSVAR then .hGetVar
  else if op = VA_TOFLOAT then .hToFloat
  else if op = VA_TOSTRING then .hToString
  else if op = VA_TOSHORT then .hToShort
  else if op = VA_TOINT then .hToInt
  else if op = VA_NUM then .hNOP
  else if op = VA_FLOATNUM then .hNOP
  else if op = VA_LOCALVAR then .hNOP
  else if op = VA_STRING then .hNOP
  else if op = VA_CREATE_TICK then .hVACreateTick
  else if op = VA_CREATE_TIMER then .hVACreateTimer
  else if op = VA_DELETE_TIMER then .hVADeleteTimer
  else if op = VA_ACTIVE_TIMER then .hVAGetActiveTimer
  else if op = VA_TIMER then .hNOP
  else .hUnsupported

/-- invoke the handler identified by `h` with the result node's data and
the two (already evaluated) children, and package the uniform outcome -/
def applyOp (cm : CHost) (W : World σ) (st : EvalState σ) (h : HOp)
    (d : VarData) (l r : Node) : Option (OpOut σ) :=
  match h with
  | .hAssign => Assign cm W st d l r
  | .hMultiply => (Multiply cm d l r).map fun o => ⟨o.1, o.2, l, r, st⟩
  | .hDivide => (Divide cm d l r).map fun o => ⟨o.1, o.2, l, r, st⟩
  | .hAdd => (Add cm d l r).map fun o => ⟨o.1, o.2, l, r, st⟩
  | .hSub => (Sub cm d l r).map fun o => ⟨o.1, o.2, l, r, st⟩
  | .hBand => (Band cm d l r).map fun o => ⟨o.1, o.2, l, r, st⟩
  | .hBor => (Bor cm d l r).map fun o => ⟨o.1, o.2, l, r, st⟩
  | .hXor => (Xor cm d l r).map fun o => ⟨o.1, o.2, l, r, st⟩
  | .hInc => Inc cm W st d l r
  | .hDec => Dec cm W st d l r
  | .hLShift => (LShift cm d l r).map fun o => ⟨o.1, o.2, l, r, st⟩
  | .hRShift => (RShift cm d l r).map fun o => ⟨o.1, o.2, l, r, st⟩
  | .hAnd => (And cm d l r).map fun o => ⟨o.1, o.2, l, r, st⟩
  | .hOr => (Or cm d l r).map fun o => ⟨o.1, o.2, l, r, st⟩
  | .hNot => (Not cm d l r).map fun o => ⟨o.1, o.2, l, r, st⟩
  | .hEquals => (Equals cm d l r).map fun o => ⟨o.1, o.2, l, r, st⟩
  | .hNotEquals => (NotEquals cm d l r).map fun o => ⟨o.1, o.2, l, r, st⟩
  | .hGreaterThan => (GreaterThan cm d l r).map fun o => ⟨o.1, o.2, l, r, st⟩
  | .hLessThan => (LessThan cm d l r).map fun o => ⟨o.1, o.2, l, r, st⟩
  | .hGreaterThanOrEqual =>
    (GreaterThanOrEqual cm d l r).map fun o => ⟨o.1, o.2, l, r, st⟩
  | .hLessThanOrEqual =>
    (LessThanOrEqual cm d l r).map fun o => ⟨o.1, o.2, l, r, st⟩
  | .hAndEquals => AndEquals cm W st d l r
  | .hOrEquals => OrEquals cm W st d l r
  | .hXorEquals => XorEquals cm W st d l r
  | .hDivEquals => DivEquals cm W st d l r
  | .hTimesEquals => TimesEquals cm W st d l r
  | .hPlusEquals => PlusEquals cm W st d l r
  | .hMinusEquals => MinusEquals cm W st d l r
  | .hGetVar => (GetVar cm W st d l r).map fun o => ⟨o.1, o.2.1, l, r, o.2.2⟩
  | .hToFloat => (ToFloat cm d l r).map fun o => ⟨o.1, o.2, l, r, st⟩
  | .hToString => (ToString cm d l r).map fun o => ⟨o.1, o.2, l, r, st⟩
  | .hToShort => (ToShort cm d l r).map fun o => ⟨o.1, o.2, l, r, st⟩
  | .hToInt => (ToInt cm d l r).map fun o => ⟨o.1, o.2, l, r, st⟩
  | .hNOP => (NOP cm d l r).map fun o => ⟨o.1, o.2, l, r, st⟩
  | .hVACreateTick =>
    (VACreateTick cm W st d l r).map fun o => ⟨o.1, o.2.1, l, r, o.2.2⟩
  | .hVACreateTimer =>
    (VACreateTimer cm W st d l r).map fun o => ⟨o.1, o.2.1, l, r, o.2.2⟩
  | .hVADeleteTimer =>
    (VADeleteTimer cm W st d l r).map fun o => ⟨o.1, o.2.1, l, r, o.2.2⟩
  | .hVAGetActiveTimer =>
    (VAGetActiveTimer cm st d l r).map fun o => ⟨o.1, o.2, l, r, st⟩
  | .hUnsupported => (Unsupported cm d l r).map fun o => ⟨o.1, o.2, l, r, st⟩

/-! ## The tree evaluator
(`ProcessVariable` / `ProcessExpr` / `ProcessIF` /
`ProcessCompoundStatement` / `ProcessStatement` in `varaction.c`)

The C functions are mutually recursive through the `IF` statement.  The
embedding is a single function `run` over `Node` with a mode:

* `.pv` — `ProcessVariable` on a `Variable *`;
* `.pcsGo acc` — the `while` loop of `ProcessCompoundStatement`, with
  `acc` the current value of the accumulated `result`.

Recursion is by an explicit recursion-depth `fuel`, decremented on every
recursive call; an exhausted fuel yields `none`.  This is a bound on the
modelled call depth, not a behaviour of the C code: theorems either
supply sufficient fuel explicitly or are conditional on a `some` result.

`g` is the value of `ProcessIF`'s uninitialised local `rc`: it is what
`ProcessIF` returns on the paths that never assign `rc` (a malformed
IF/ELSE shape).  The failure diagnostic of `ProcessVariable` indexes
`opname[operation]`, which is out of bounds (undefined) when a failing
node's operation code is `≥ VA_OP_MAX`; `pvWrap` models that read. -/

inductive Mode where
  | pv
  | pcsGo (acc : Int)

/-- the `fprintf` diagnostic at the end of `ProcessVariable`: executed when
the result is not `EOK`, it reads `opname[operation]` — undefined for
`operation ≥ VA_OP_MAX`. -/
def pvWrap (op : Nat) :
    Option (Int × Node × EvalState σ) → Option (Int × Node × EvalState σ)
  | some (result, n2, st2) =>
    if result ≠ EOK ∧ VA_OP_MAX ≤ op then none else some (result, n2, st2)
  | none => none

def run (cm : CHost) (W : World σ) (g : Int) : Nat → Node → Mode → EvalState σ →
    Option (Int × Node × EvalState σ)
  | 0, _, _, _ => none  -- recursion-depth fuel exhausted
  | _+1, .null, .pv, st => some (EINVAL, .null, st)  -- ProcessVariable( NULL )
  | _+1, .stmt _ _ _, .pv, _ => none  -- a Statement* evaluated as a Variable*
  | fuel+1, .var d l r, .pv, st =>
    pvWrap d.operation
      (if d.operation = VA_IF then
        -- ProcessIF( hVarServer, left, right )
        match l with
        | .null => some (g, .var d l r, st)  -- rc never assigned
        | _ =>
          match r with
          | .null => some (g, .var d l .null, st)  -- rc never assigned
          | .stmt _ _ _ => none  -- right->operation on a type-punned pointer
          | .var rd rl rr =>
            if rd.operation = VA_ELSE then
              -- evaluate the truth of the IF statement
              match run cm W g fuel l .pv st with
              | none => none
              | some (rc, l2, st1) =>
                if rc = EOK then
                  match l2.varData with
                  | none => none  -- unreachable: a Variable evaluates to a Variable
                  | some ld2 =>
                    if ld2.obj.ui ≠ 0 then
                      -- IF then block
                      match rl with
                      | .null => some (EINVAL, .var d l2 (.var rd .null rr), st1)
                      | .var _ _ _ => none  -- Variable* used as Statement*
                      | .stmt _ _ _ =>
                        match run cm W g fuel rl (.pcsGo EOK) st1 with
                        | none => none
                        | some (rc2, rl2, st2) =>
                          some (rc2, .var d l2 (.var rd rl2 rr), st2)
                    else
                      -- IF else block
                      match rr with
                      | .null => some (EOK, .var d l2 (.var rd rl .null), st1)
                      | .var _ _ _ => none  -- Variable* used as Statement*
                      | .stmt _ _ _ =>
                        match run cm W g fuel rr (.pcsGo EOK) st1 with
                        | none => none
                        | some (rc2, rr2, st2) =>
                          some (rc2, .var d l2 (.var rd rl rr2), st2)
                else
                  some (rc, .var d l2 (.var rd rl rr), st1)
            else
              some (g, .var d l (.var rd rl rr), st)  -- rc never assigned
      else
        -- ProcessExpr: recursively evaluate the node reachable via the
        -- right child, then the node reachable via the left child, then
        -- dispatch on the node's own operation.  The sub-evaluation codes
        -- lrc/rrc are never read.
        match run cm W g fuel r .pv st with
        | none => none
        | some (_lrc, r2, st1) =>
          match run cm W g fuel l .pv st1 with
          | none => none
          | some (_rrc, l2, st2) =>
            if d.operation < VA_OP_MAX then
              match applyOp cm W st2 (vaOp d.operation) d l2 r2 with
              | none => none
              | some o => some (o.code, .var o.d o.left o.right, o.st)
            else
              some (ENOTSUP, .var d l2 r2, st2))
  | _+1, .null, .pcsGo acc, st => some (acc, .null, st)  -- end of the statement list
  | _+1, .var _ _ _, .pcsGo _, _ => none  -- a Variable* walked as a Statement*
  | fuel+1, .stmt v scr nx, .pcsGo acc, st =>
    -- rc = ProcessStatement( hVarServer, pStatement )
    let step : Option (Int × Node × EvalState σ) :=
      match v with
      | .null =>
        match scr with
        | some _ => some (EOK, .null, st)  -- ProcessScript: fire and forget
        | none => some (ENOTSUP, .null, st)
      | _ => run cm W g fuel v .pv st
    match step with
    | none => none
    | some (rc, v2, st2) =>
      match run cm W g fuel nx (.pcsGo (if rc ≠ EOK then rc else acc)) st2 with
      | none => none
      | some (code, nx2, st3) => some (code, .stmt v2 scr nx2, st3)

/-- C: `ProcessVariable( hVarServer, pVariable )` -/
def ProcessVariable (cm : CHost) (W : World σ) (g : Int) (fuel : Nat)
    (st : EvalState σ) (n : Node) : Option (Int × Node × EvalState σ) :=
  run cm W g fuel n .pv st

/-- C: `ProcessCompoundStatement( hVarServer, pStatements )`: processes every
statement of the list in order; a NULL list is `EINVAL`. -/
def ProcessCompoundStatement (cm : CHost) (W : World σ) (g : Int) (fuel : Nat)
    (st : EvalState σ) (n : Node) : Option (Int × Node × EvalState σ) :=
  match n with
  | .null => some (EINVAL, .null, st)
  | .var _ _ _ => none  -- a Variable* used as a Statement*
  | .stmt _ _ _ => run cm W g fuel n (.pcsGo EOK) st

/-- C: `ProcessStatement( hVarServer, pStatement )`: a single statement —
evaluate its variable tree, or run its script, or fail with `ENOTSUP` -/
def ProcessStatement (cm : CHost) (W : World σ) (g : Int) (fuel : Nat)
    (st : EvalState σ) (n : Node) : Option (Int × Node × EvalState σ) :=
  match n with
  | .null => some (EINVAL, .null, st)
  | .var _ _ _ => none  -- a Variable* used as a Statement*
  | .stmt v scr nx =>
    let step : Option (Int × Node × EvalState σ) :=
      match v with
      | .null =>
        match scr with
        | some _ => some (EOK, .null, st)
        | none => some (ENOTSUP, .null, st)
      | _ => ProcessVariable cm W g fuel st v
    match step with
    | none => none
    | some (rc, v2, st2) => some (rc, .stmt v2 scr nx, st2)

/-- C: `ProcessScript( script )`: hand the command string to `system()`;
success is reported unconditionally once invoked -/
def ProcessScript (script : Option String) : Int :=
  match script with
  | some _ => EOK
  | none => EINVAL

/-- C: `ProcessIF( hVarServer, left, right )`, stated over the two children of
an IF node; returns (code, updated left, updated right, updated state).
`g` is the value of the uninitialised local `rc`. -/
def ProcessIF (cm : CHost) (W : World σ) (g : Int) (fuel : Nat)
    (st : EvalState σ) (l r : Node) : Option (Int × Node × Node × EvalState σ) :=
  match l with
  | .null => some (g, l, r, st)
  | _ =>
    match r with
    | .null => some (g, l, .null, st)
    | .stmt _ _ _ => none
    | .var rd rl rr =>
      if rd.operation = VA_ELSE then
        match ProcessVariable cm W g fuel st l with
        | none => none
        | some (rc, l2, st1) =>
          if rc = EOK then
            match l2.varData with
            | none => none
            | some ld2 =>
              if ld2.obj.ui ≠ 0 then
                match ProcessCompoundStatement cm W g fuel st1 rl with
                | none => none
                | some (rc2, rl2, st2) => some (rc2, l2, .var rd rl2 rr, st2)
              else
                match rr with
                | .null => some (EOK, l2, .var rd rl .null, st1)
                | _ =>
                  match ProcessCompoundStatement cm W g fuel st1 rr with
                  | none => none
                  | some (rc2, rr2, st2) => some (rc2, l2, .var rd rl rr2, st2)
          else
            some (rc, l2, .var rd rl rr, st1)
      else
        some (g, l, .var rd rl rr, st)

/-! ## Reference semantics of a compound statement

`stmtCodesSpec` follows §7 of the specification: a statement list is
executed by processing *every* statement in list order, collecting each
statement's result code; the list's overall code is the most recent
failing code (`lastFail`), or success when no statement failed.  The
per-statement processing is the same `ProcessStatement` body (sharing
`run` for the expression trees); only the accumulation differs.  The
refinement theorem for C7 relates `run _ (.pcsGo _)` to this
definition. -/

def stmtCodesSpec (cm : CHost) (W : World σ) (g : Int) :
    Nat → EvalState σ → Node → Option (List Int × Node × EvalState σ)
  | 0, _, _ => none
  | _+1, st, .null => some ([], .null, st)
  | _+1, _, .var _ _ _ => none
  | fuel+1, st, .stmt v scr nx =>
    let step : Option (Int × Node × EvalState σ) :=
      match v with
      | .null =>
        match scr with
        | some _ => some (EOK, .null, st)
        | none => some (ENOTSUP, .null, st)
      | _ => run cm W g fuel v .pv st
    match step with
    | none => none
    | some (rc, v2, st2) =>
      match stmtCodesSpec cm W g fuel st2 nx with
      | none => none
      | some (codes, nx2, st3) => some (rc :: codes, .stmt v2 scr nx2, st3)

/-- the accumulated result of a statement list: the most recent non-`EOK`
code, starting from `acc` -/
def lastFail (acc : Int) (codes : List Int) : Int :=
  codes.foldl (fun a c => if c ≠ EOK then c else a) acc

/-! ## Concrete instantiations used by the closed test theorems

These fix the abstract collaborator parameters to simple concrete values
so that closed evaluations of the embedded code can be checked by
`decide`/`rfl`. -/

/-- an arbitrary concrete `CHost` (no test below depends on its values) -/
def trivCM : CHost :=
  { fadd := fun _ _ => 0, fsub := fun _ _ => 0, fmul := fun _ _ => 0,
    fdiv := fun _ _ => 0, feq := fun _ _ => false, fgt := fun _ _ => false,
    flt := fun _ _ => false, fge := fun _ _ => false, fle := fun _ _ => false,
    fIsZero := fun _ => false, ofU16 := fun n => n, ofU32 := fun n => n,
    toShort := fun n => Int.ofNat n, toInt := fun n => Int.ofNat n,
    atof := fun _ => 0, atoi := fun _ => 0, atol := fun _ => 0,
    fmtU16 := fun _ _ _ => "", fmtU32 := fun _ _ _ => "",
    fmtF := fun _ _ _ => "" }

/-- a world with a unit state: every store and OS call succeeds -/
def unitWorld : World Unit :=
  { varGet := fun s _ => (EOK, {}, s),
    varSet := fun s _ _ => (EOK, s),
    osTimerCreate := fun s => (1, s),
    osTimerSettime := fun s _ _ _ _ _ => s,
    osTimerDelete := fun s _ => (0, s) }

/-- a world whose state logs the handle of every `VAR_Get`; the fetched
object carries the handle as its 16-bit value -/
def logWorld : World (List Nat) :=
  { varGet := fun s h => (EOK, { type := .uint16, len := 2, ui := h }, s ++ [h]),
    varSet := fun s _ _ => (EOK, s),
    osTimerCreate := fun s => (1, s),
    osTimerSettime := fun s _ _ _ _ _ => s,
    osTimerDelete := fun s _ => (0, s) }

/-- a world whose `VAR_Set` always fails with `EBUSY` -/
def setFailWorld : World Unit :=
  { varGet := fun s _ => (EOK, {}, s),
    varSet := fun s _ _ => (EBUSY, s),
    osTimerCreate := fun s => (1, s),
    osTimerSettime := fun s _ _ _ _ _ => s,
    osTimerDelete := fun s _ => (0, s) }

/-- a world whose `timer_delete` fails with `EINVAL` exactly on the null
handle `0` (the glibc behaviour for an invalid timer id) -/
def timerWorld : World Unit :=
  { varGet := fun s _ => (EOK, {}, s),
    varSet := fun s _ _ => (EOK, s),
    osTimerCreate := fun s => (7, s),
    osTimerSettime := fun s _ _ _ _ _ => s,
    osTimerDelete := fun s h => ((if h = 0 then EINVAL else 0), s) }

/-- an initial process state over a given world state: empty timer table,
no active timer -/
def st0 {σ : Type} (w : σ) : EvalState σ :=
  { ext := w, timers := fun _ => 0, activeTimer := 0 }

/-- node data for a 16-bit value under a given operation code -/
def d16 (op v : Nat) : VarData :=
  { operation := op, obj := { type := .uint16, len := 2, ui := v } }

/-- a 16-bit constant-number leaf (operation `VA_NUM`, handled by `NOP`) -/
def num16 (v : Nat) : Node :=
  .var (d16 VA_NUM v) .null .null

/-- a 16-bit local-variable leaf (operation `VA_LOCALVAR`, handled by `NOP`) -/
def loc16 (v : Nat) : Node :=
  .var (d16 VA_LOCALVAR v) .null .null

/-- a 16-bit store-bound variable leaf (operation `VA_SYSVAR`) -/
def sys16 (h v : Nat) : Node :=
  .var { operation := VA_SYSVAR, hVar := h,
         obj := { type := .uint16, len := 2, ui := v } } .null .null

/-! # Theorems -/

/-- C1: the claim states that `NotEquals` returns the boolean complement of
`Equals` (0 on equal operands, 1 on unequal operands).  The code does not:
the inversion in `NotEquals` is dead (`if( pResult == EOK )` compares the
result *pointer* against 0, and the guarded expression has no side effect),
so `NotEquals` returns the `Equals` result unchanged.  At the 16-bit pair
(5, 5), `Equals` succeeds with value 1 and `NotEquals` also yields 1 where
the claim requires 0; at (4, 5) both yield 0 where the claim requires
`NotEquals` to yield 1. -/
theorem C1_notequals_not_inverted :
    (Equals trivCM {} (loc16 5) (loc16 5)).map (fun o => (o.1, o.2.obj.ui)) =
      some (EOK, 1)
    ∧ (NotEquals trivCM {} (loc16 5) (loc16 5)).map (fun o => (o.1, o.2.obj.ui)) =
      some (EOK, 1)
    ∧ (Equals trivCM {} (loc16 4) (loc16 5)).map (fun o => (o.1, o.2.obj.ui)) =
      some (EOK, 0)
    ∧ (NotEquals trivCM {} (loc16 4) (loc16 5)).map (fun o => (o.1, o.2.obj.ui)) =
      some (EOK, 0) := by
  decide

/-- C2: the claim states that the dispatch table maps the `|=` operation
code to an or-equals handler and that evaluating a `|=` node computes the
bitwise OR.  The code maps `VA_OR_EQUALS` to `AndEquals`
(`va_op[VA_OR_EQUALS] = AndEquals;`), so evaluating a `|=` node with
16-bit operands 1 and 2 leaves the left operand and the result at
`1 & 2 = 0`, while the (never installed) `OrEquals` handler would give
`1 | 2 = 3`. -/
theorem C2_or_equals_maps_to_and_equals :
    vaOp VA_OR_EQUALS = HOp.hAndEquals
    ∧ vaOp VA_OR_EQUALS ≠ HOp.hOrEquals
    ∧ (run trivCM unitWorld 0 9
        (.var (d16 VA_OR_EQUALS 0) (loc16 1) (loc16 2)) .pv (st0 ())).map
        (fun o => (o.1, o.2.1)) =
      some (EOK, .var { d16 VA_OR_EQUALS 0 with
        obj := { type := .uint16, len := 2, ui := 0 } } (loc16 0) (loc16 2))
    ∧ (OrEquals trivCM unitWorld (st0 ()) (d16 VA_OR_EQUALS 0)
        (loc16 1) (loc16 2)).map (fun o => (o.code, o.left)) =
      some (EOK, loc16 3) := by
  decide

/-- C3 (counterexample): the claim states that the evaluator accumulates
the most recent non-success code of the sub-evaluations.  It does not: at
a `VA_NUM` node whose right child fails with `ENOTSUP` (operation code 0
dispatches to `Unsupported`), the whole evaluation returns `EOK` — the
child's failure code is discarded, not accumulated. -/
theorem C3_child_failure_discarded :
    (ProcessVariable trivCM unitWorld 0 9 (st0 ())
      (.var (d16 VA_NUM 0) .null (.var (d16 VA_ILLEGAL 0) .null .null))).map
      (fun o => o.1) = some EOK
    ∧ (ProcessVariable trivCM unitWorld 0 9 (st0 ())
        (.var (d16 VA_ILLEGAL 0) .null .null)).map (fun o => o.1) =
      some ENOTSUP
    ∧ ENOTSUP ≠ EOK := by
  decide

/-- C3 (amended): for every non-IF node the evaluator first evaluates the
subtree reachable via the right child, then the subtree reachable via the
left child in the state left by the right subtree, then invokes the
dispatch-table handler for the node's own operation code on both updated
children — even when a sub-evaluation failed; the sub-evaluation result
codes (`lrc`/`rrc`) are discarded, and the node's result code is the
handler's return code alone (`ENOTSUP` for codes outside the table).
The second conjunct observes the order concretely: under the get-logging
world, a node over two store-bound leaves reads the right leaf's handle 2
before the left leaf's handle 1. -/
theorem C3_right_then_left_then_dispatch :
    (∀ {σ : Type} (cm : CHost) (W : World σ) (g : Int) (fuel : Nat)
      (st : EvalState σ) (d : VarData) (l r : Node), d.operation ≠ VA_IF →
      run cm W g (fuel+1) (.var d l r) .pv st =
        pvWrap d.operation
          (match run cm W g fuel r .pv st with
           | none => none
           | some (_lrc, r2, st1) =>
             match run cm W g fuel l .pv st1 with
             | none => none
             | some (_rrc, l2, st2) =>
               if d.operation < VA_OP_MAX then
                 match applyOp cm W st2 (vaOp d.operation) d l2 r2 with
                 | none => none
                 | some o => some (o.code, .var o.d o.left o.right, o.st)
               else
                 some (ENOTSUP, .var d l2 r2, st2)))
    ∧ (ProcessVariable trivCM logWorld 0 9 (st0 [])
        (.var (d16 VA_NUM 0) (sys16 1 0) (sys16 2 0))).map
        (fun o => (o.1, o.2.2.ext)) = some (EOK, [2, 1]) := by
  constructor
  · intro σ cm W g fuel st d l r hop
    show pvWrap d.operation _ = _
    rw [if_neg hop]
  · decide

/-- C3 (witness): the amended evaluation-order theorem at a concrete
non-IF node — a `VA_NUM` node over two store-bound leaves, under the
logging world: the equation instantiates with the hypothesis
`VA_NUM ≠ VA_IF` discharged. -/
theorem C3_right_then_left_then_dispatch_witness :
    run trivCM logWorld 0 4 (.var (d16 VA_NUM 0) (sys16 1 0) (sys16 2 0)) .pv
      (st0 []) =
      pvWrap (d16 VA_NUM 0).operation
        (match run trivCM logWorld 0 3 (sys16 2 0) .pv (st0 []) with
         | none => none
         | some (_lrc, r2, st1) =>
           match run trivCM logWorld 0 3 (sys16 1 0) .pv st1 with
           | none => none
           | some (_rrc, l2, st2) =>
             if (d16 VA_NUM 0).operation < VA_OP_MAX then
               match applyOp trivCM logWorld st2 (vaOp (d16 VA_NUM 0).operation)
                   (d16 VA_NUM 0) l2 r2 with
               | none => none
               | some o => some (o.code, .var o.d o.left o.right, o.st)
             else
               some (ENOTSUP, .var (d16 VA_NUM 0) l2 r2, st2)) :=
  C3_right_then_left_then_dispatch.1 trivCM logWorld 0 3 (st0 [])
    (d16 VA_NUM 0) (sys16 1 0) (sys16 2 0) (by decide)

/-- C4: the claim states that a malformed IF node (right child absent, or
present but not an ELSE node) fails with the invalid-argument error
`EINVAL`.  The code's local `rc` is *uninitialised* on those paths (the
function's own `@retval` documentation says `EINVAL`), so `ProcessIF`
returns whatever value is on the stack — modelled by the parameter `g`,
here 77: both malformed shapes return 77, not `EINVAL`.  The well-formed
cases behave as claimed: a non-zero 16-bit condition executes only the
"then" list (only handle 1 is read), and a zero condition with no "else"
list succeeds with no action. -/
theorem C4_processif_uninitialised_rc :
    (ProcessIF trivCM logWorld 77 9 (st0 []) (num16 1) .null).map
      (fun o => o.1) = some 77
    ∧ (ProcessIF trivCM logWorld 77 9 (st0 []) (num16 1) (num16 3)).map
        (fun o => o.1) = some 77
    ∧ (77 : Int) ≠ EINVAL
    ∧ (ProcessIF trivCM logWorld 77 9 (st0 []) (num16 1)
        (.var { operation := VA_ELSE, obj := { type := .uint16 } }
          (.stmt (sys16 1 0) none .null)
          (.stmt (sys16 2 0) none .null))).map
        (fun o => (o.1, o.2.2.2.ext)) = some (EOK, [1])
    ∧ (ProcessIF trivCM logWorld 77 9 (st0 []) (num16 0)
        (.var { operation := VA_ELSE, obj := { type := .uint16 } }
          (.stmt (sys16 1 0) none .null) .null)).map
        (fun o => (o.1, o.2.2.2.ext)) = some (EOK, []) := by
  decide

/-- C5: for a store-bound (`VA_SYSVAR`) left operand, `PlusEquals` and
`MinusEquals` first mutate the left operand in memory and then return the
`VAR_Set` code as the operator's result: whatever the store write returns
(in particular any failure code), the in-memory left operand holds the
mutated (post-arithmetic) value — the mutation is not rolled back. -/
theorem C5_store_write_after_mutation {σ : Type} (cm : CHost) (W : World σ)
    (st : EvalState σ) (d x y : VarData) (ll lr rl rr : Node)
    (hx : x.operation = VA_SYSVAR) :
    (x.obj.type = .uint16 →
      PlusEquals cm W st d (.var x ll lr) (.var y rl rr) =
        some ⟨(W.varSet st.ext x.hVar
                { x.obj with ui := u16 (x.obj.ui + y.obj.ui) }).1,
              { d with obj := { d.obj with ui := u16 (x.obj.ui + y.obj.ui),
                                           type := .uint16, len := 2 } },
              .var { x with obj := { x.obj with ui := u16 (x.obj.ui + y.obj.ui) } } ll lr,
              .var y rl rr,
              { st with ext := (W.varSet st.ext x.hVar
                { x.obj with ui := u16 (x.obj.ui + y.obj.ui) }).2 }⟩)
    ∧ (x.obj.type = .uint32 →
      PlusEquals cm W st d (.var x ll lr) (.var y rl rr) =
        some ⟨(W.varSet st.ext x.hVar
                { x.obj with ul := u32 (x.obj.ul + y.obj.ul) }).1,
              { d with obj := { d.obj with ul := u32 (x.obj.ul + y.obj.ul),
                                           type := .uint32, len := 4 } },
              .var { x with obj := { x.obj with ul := u32 (x.obj.ul + y.obj.ul) } } ll lr,
              .var y rl rr,
              { st with ext := (W.varSet st.ext x.hVar
                { x.obj with ul := u32 (x.obj.ul + y.obj.ul) }).2 }⟩)
    ∧ (x.obj.type = .uint16 →
      MinusEquals cm W st d (.var x ll lr) (.var y rl rr) =
        some ⟨(W.varSet st.ext x.hVar
                { x.obj with ui := sub16 x.obj.ui y.obj.ui }).1,
              { d with obj := { d.obj with ui := sub16 x.obj.ui y.obj.ui,
                                           type := .uint16, len := 2 } },
              .var { x with obj := { x.obj with ui := sub16 x.obj.ui y.obj.ui } } ll lr,
              .var y rl rr,
              { st with ext := (W.varSet st.ext x.hVar
                { x.obj with ui := sub16 x.obj.ui y.obj.ui }).2 }⟩)
    ∧ (x.obj.type = .uint32 →
      MinusEquals cm W st d (.var x ll lr) (.var y rl rr) =
        some ⟨(W.varSet st.ext x.hVar
                { x.obj with ul := sub32 x.obj.ul y.obj.ul }).1,
              { d with obj := { d.obj with ul := sub32 x.obj.ul y.obj.ul,
                                           type := .uint32, len := 4 } },
              .var { x with obj := { x.obj with ul := sub32 x.obj.ul y.obj.ul } } ll lr,
              .var y rl rr,
              { st with ext := (W.varSet st.ext x.hVar
                { x.obj with ul := sub32 x.obj.ul y.obj.ul }).2 }⟩) := by
  refine ⟨?_, ?_, ?_, ?_⟩ <;> intro ht <;>
    simp [PlusEquals, MinusEquals, args2, ht, setSysvar, hx, Node.withData, EOK]

/-- C5 (witness): a concrete store-bound 16-bit `+=` under a store whose
`VAR_Set` fails with `EBUSY`: the operator returns `EBUSY` and the in-memory
left operand holds the mutated value 12 = 5 + 7. -/
theorem C5_store_write_after_mutation_witness :
    ({ operation := VA_SYSVAR, hVar := 3,
       obj := { type := .uint16, len := 2, ui := 5 } } : VarData).operation =
      VA_SYSVAR
    ∧ PlusEquals trivCM setFailWorld (st0 ()) {}
        (.var { operation := VA_SYSVAR, hVar := 3,
                obj := { type := .uint16, len := 2, ui := 5 } } .null .null)
        (.var (d16 VA_NUM 7) .null .null) =
      some ⟨EBUSY,
            { obj := { ui := 12, type := .uint16, len := 2 } },
            .var { operation := VA_SYSVAR, hVar := 3,
                   obj := { type := .uint16, len := 2, ui := 12 } } .null .null,
            .var (d16 VA_NUM 7) .null .null,
            st0 ()⟩ :=
  ⟨rfl,
    (C5_store_write_after_mutation trivCM setFailWorld (st0 ()) {}
      { operation := VA_SYSVAR, hVar := 3,
        obj := { type := .uint16, len := 2, ui := 5 } }
      (d16 VA_NUM 7) .null .null .null .null rfl).1 rfl⟩

/-- C6: `Inc` with a present left operand is a post-increment — the result
node receives the pre-mutation value and the operand is left at value+1
(reduced to the operand's 16/32-bit width); `Inc` with only a right
operand is a pre-increment — the operand is incremented first and the
result node receives the post-mutation value.  For the 16-bit scenario
x = 5: post-increment yields result 5 with x becoming 6, and a following
pre-increment yields result 7 with x becoming 7. -/
theorem C6_inc_post_pre {σ : Type} (cm : CHost) (W : World σ)
    (st : EvalState σ) (d : VarData) :
    (∀ (ld : VarData) (ll lr r : Node), ld.obj.type = .uint16 →
      Inc cm W st d (.var ld ll lr) r =
        some ⟨(setSysvar W st EOK
                { ld with obj := { ld.obj with ui := u16 (ld.obj.ui + 1) } }).1,
              { d with obj := { d.obj with ui := ld.obj.ui } },
              .var { ld with obj := { ld.obj with ui := u16 (ld.obj.ui + 1) } } ll lr,
              r,
              (setSysvar W st EOK
                { ld with obj := { ld.obj with ui := u16 (ld.obj.ui + 1) } }).2⟩)
    ∧ (∀ (ld : VarData) (ll lr r : Node), ld.obj.type = .uint32 →
      Inc cm W st d (.var ld ll lr) r =
        some ⟨(setSysvar W st EOK
                { ld with obj := { ld.obj with ul := u32 (ld.obj.ul + 1) } }).1,
              { d with obj := { d.obj with ul := ld.obj.ul } },
              .var { ld with obj := { ld.obj with ul := u32 (ld.obj.ul + 1) } } ll lr,
              r,
              (setSysvar W st EOK
                { ld with obj := { ld.obj with ul := u32 (ld.obj.ul + 1) } }).2⟩)
    ∧ (∀ (rd : VarData) (rl rr : Node), rd.obj.type = .uint16 →
      Inc cm W st d .null (.var rd rl rr) =
        some ⟨(setSysvar W st EOK
                { rd with obj := { rd.obj with ui := u16 (rd.obj.ui + 1) } }).1,
              { d with obj := { d.obj with ui := u16 (rd.obj.ui + 1) } },
              .null,
              .var { rd with obj := { rd.obj with ui := u16 (rd.obj.ui + 1) } } rl rr,
              (setSysvar W st EOK
                { rd with obj := { rd.obj with ui := u16 (rd.obj.ui + 1) } }).2⟩)
    ∧ (∀ (rd : VarData) (rl rr : Node), rd.obj.type = .uint32 →
      Inc cm W st d .null (.var rd rl rr) =
        some ⟨(setSysvar W st EOK
                { rd with obj := { rd.obj with ul := u32 (rd.obj.ul + 1) } }).1,
              { d with obj := { d.obj with ul := u32 (rd.obj.ul + 1) } },
              .null,
              .var { rd with obj := { rd.obj with ul := u32 (rd.obj.ul + 1) } } rl rr,
              (setSysvar W st EOK
                { rd with obj := { rd.obj with ul := u32 (rd.obj.ul + 1) } }).2⟩)
    ∧ ((Inc trivCM unitWorld (st0 ()) {}
          (.var (d16 VA_LOCALVAR 5) .null .null) .null).map
          (fun o => (o.code, o.d.obj.ui, o.left)) =
        some (EOK, 5, .var (d16 VA_LOCALVAR 6) .null .null)
      ∧ (Inc trivCM unitWorld (st0 ()) {} .null
          (.var (d16 VA_LOCALVAR 6) .null .null)).map
          (fun o => (o.code, o.d.obj.ui, o.right)) =
        some (EOK, 7, .var (d16 VA_LOCALVAR 7) .null .null)) := by
  refine ⟨?_, ?_, ?_, ?_, by decide⟩
  · intro ld ll lr r ht
    simp [Inc, ht, Node.withData]
  · intro ld ll lr r ht
    simp [Inc, ht, Node.withData]
  · intro rd rl rr ht
    simp [Inc, ht, Node.withData]
  · intro rd rl rr ht
    simp [Inc, ht, Node.withData]

/-- C6 (witness): the post-increment equation of C6 at the concrete 16-bit
local variable x = 5 (hypothesis `type = uint16` discharged). -/
theorem C6_inc_post_pre_witness :
    Inc trivCM unitWorld (st0 ()) {} (.var (d16 VA_LOCALVAR 5) .null .null)
      .null =
      some ⟨(setSysvar unitWorld (st0 ()) EOK
              { d16 VA_LOCALVAR 5 with
                obj := { (d16 VA_LOCALVAR 5).obj with
                  ui := u16 ((d16 VA_LOCALVAR 5).obj.ui + 1) } }).1,
            { obj := { ui := (d16 VA_LOCALVAR 5).obj.ui } },
            .var { d16 VA_LOCALVAR 5 with
              obj := { (d16 VA_LOCALVAR 5).obj with
                ui := u16 ((d16 VA_LOCALVAR 5).obj.ui + 1) } } .null .null,
            .null,
            (setSysvar unitWorld (st0 ()) EOK
              { d16 VA_LOCALVAR 5 with
                obj := { (d16 VA_LOCALVAR 5).obj with
                  ui := u16 ((d16 VA_LOCALVAR 5).obj.ui + 1) } }).2⟩ :=
  (C6_inc_post_pre trivCM unitWorld (st0 ()) {}).1 (d16 VA_LOCALVAR 5)
    .null .null .null rfl

/-! helper lemmas for C7 -/

/-- the `ProcessStatement` step shared by `run`'s `.pcsGo` loop and
`stmtCodesSpec` -/
def stepStatement (cm : CHost) (W : World σ) (g : Int) (fuel : Nat)
    (st : EvalState σ) (v : Node) (scr : Option String) :
    Option (Int × Node × EvalState σ) :=
  match v with
  | .null =>
    match scr with
    | some _ => some (EOK, .null, st)
    | none => some (ENOTSUP, .null, st)
  | _ => run cm W g fuel v .pv st

theorem run_pcsGo_stmt {σ : Type} (cm : CHost) (W : World σ) (g : Int)
    (fuel : Nat) (v : Node) (scr : Option String) (nx : Node) (acc : Int)
    (st : EvalState σ) :
    run cm W g (fuel+1) (.stmt v scr nx) (.pcsGo acc) st =
      (match stepStatement cm W g fuel st v scr with
       | none => none
       | some (rc, v2, st2) =>
         match run cm W g fuel nx (.pcsGo (if rc ≠ EOK then rc else acc)) st2 with
         | none => none
         | some (code, nx2, st3) => some (code, .stmt v2 scr nx2, st3)) := rfl

theorem stmtCodesSpec_stmt {σ : Type} (cm : CHost) (W : World σ) (g : Int)
    (fuel : Nat) (v : Node) (scr : Option String) (nx : Node)
    (st : EvalState σ) :
    stmtCodesSpec cm W g (fuel+1) st (.stmt v scr nx) =
      (match stepStatement cm W g fuel st v scr with
       | none => none
       | some (rc, v2, st2) =>
         match stmtCodesSpec cm W g fuel st2 nx with
         | none => none
         | some (codes, nx2, st3) => some (rc :: codes, .stmt v2 scr nx2, st3)) := rfl

theorem run_pcsGo_eq_spec {σ : Type} (cm : CHost) (W : World σ) (g : Int) :
    ∀ (fuel : Nat) (acc : Int) (st : EvalState σ) (n : Node),
      run cm W g fuel n (.pcsGo acc) st =
        (stmtCodesSpec cm W g fuel st n).map
          (fun o => (lastFail acc o.1, o.2.1, o.2.2)) := by
  intro fuel
  induction fuel with
  | zero => intro acc st n; rfl
  | succ fuel ih =>
    intro acc st n
    cases n with
    | null => rfl
    | var d l r => rfl
    | stmt v scr nx =>
      rw [run_pcsGo_stmt, stmtCodesSpec_stmt]
      cases hstep : stepStatement cm W g fuel st v scr with
      | none => rfl
      | some p =>
        obtain ⟨rc, v2, st2⟩ := p
        dsimp only
        rw [ih (if rc ≠ EOK then rc else acc) st2 nx]
        cases hrest : stmtCodesSpec cm W g fuel st2 nx with
        | none => rfl
        | some q => rfl

theorem lastFail_filter :
    ∀ (codes : List Int) (acc : Int),
      lastFail acc codes = (codes.filter fun c => c != EOK).getLastD acc := by
  intro codes
  induction codes with
  | nil => intro acc; rfl
  | cons c cs ih =>
    intro acc
    have h1 : lastFail acc (c :: cs) = lastFail (if c ≠ EOK then c else acc) cs := rfl
    rw [h1, ih]
    by_cases hc : c = EOK
    · subst hc
      simp [List.filter_cons]
    · rw [if_pos hc]
      have hf : (c :: cs).filter (fun x => x != EOK) =
          c :: cs.filter (fun x => x != EOK) := by
        simp [List.filter_cons, hc]
      rw [hf, List.getLastD_cons]

theorem lastFail_ne_eok :
    ∀ (codes : List Int) (acc : Int), acc ≠ EOK → lastFail acc codes ≠ EOK := by
  intro codes
  induction codes with
  | nil => intro acc h; exact h
  | cons c cs ih =>
    intro acc h
    have h1 : lastFail acc (c :: cs) = lastFail (if c ≠ EOK then c else acc) cs := rfl
    rw [h1]
    by_cases hc : c = EOK
    · rw [if_neg (by simp [hc])]
      exact ih acc h
    · rw [if_pos hc]
      exact ih c hc

theorem lastFail_eok_iff :
    ∀ codes : List Int, lastFail EOK codes = EOK ↔ ∀ c ∈ codes, c = EOK := by
  intro codes
  induction codes with
  | nil => simp [lastFail]
  | cons c cs ih =>
    have h1 : lastFail EOK (c :: cs) = lastFail (if c ≠ EOK then c else EOK) cs := rfl
    constructor
    · intro h a ha
      by_cases hc : c = EOK
      · rcases List.mem_cons.mp ha with h2 | h2
        · exact h2.trans hc
        · rw [h1, if_neg (by simp [hc])] at h
          exact ih.mp h a h2
      · exfalso
        rw [h1, if_pos hc] at h
        exact lastFail_ne_eok cs c hc h
    · intro h
      rw [h1, if_neg (by simp [h c (List.mem_cons_self c cs)])]
      exact ih.mpr (fun a ha => h a (List.mem_cons_of_mem c ha))

/-- the number of statements in a statement list -/
def stmtCount : Node → Nat
  | .stmt _ _ nx => stmtCount nx + 1
  | _ => 0

theorem stmtCodesSpec_length {σ : Type} (cm : CHost) (W : World σ) (g : Int) :
    ∀ (fuel : Nat) (st : EvalState σ) (n : Node)
      (out : List Int × Node × EvalState σ),
      stmtCodesSpec cm W g fuel st n = some out → out.1.length = stmtCount n := by
  intro fuel
  induction fuel with
  | zero => intro st n out h; exact absurd h (by simp [stmtCodesSpec])
  | succ fuel ih =>
    intro st n out h
    cases n with
    | null =>
      simp only [stmtCodesSpec] at h
      cases h
      rfl
    | var d l r => exact absurd h (by simp [stmtCodesSpec])
    | stmt v scr nx =>
      rw [stmtCodesSpec_stmt] at h
      cases hstep : stepStatement cm W g fuel st v scr with
      | none => rw [hstep] at h; cases h
      | some p =>
        obtain ⟨rc, v2, st2⟩ := p
        rw [hstep] at h
        dsimp only at h
        cases hrest : stmtCodesSpec cm W g fuel st2 nx with
        | none => rw [hrest] at h; cases h
        | some q =>
          rw [hrest] at h
          cases h
          simp [stmtCount, ih st2 nx q hrest]

/-- C7: executing a (non-NULL) statement list is equivalent to processing
every statement in list order while collecting each statement's result
code (`stmtCodesSpec`), and the code returned for the list is the most
recent non-success code (`lastFail`); `lastFail` is the last failing code
of the list (or the neutral value when no statement failed), and equals
success exactly when no statement failed.  `stmtCodesSpec` records one
code per statement (`stmtCount`), so every statement is processed even
when an earlier one fails. -/
theorem C7_compound_best_effort {σ : Type} (cm : CHost) (W : World σ)
    (g : Int) :
    (∀ (fuel : Nat) (st : EvalState σ) (v : Node) (scr : Option String)
        (nx : Node),
      ProcessCompoundStatement cm W g fuel st (.stmt v scr nx) =
        (stmtCodesSpec cm W g fuel st (.stmt v scr nx)).map
          (fun o => (lastFail EOK o.1, o.2.1, o.2.2)))
    ∧ (∀ (fuel : Nat) (st : EvalState σ) (n : Node)
        (out : List Int × Node × EvalState σ),
        stmtCodesSpec cm W g fuel st n = some out →
          out.1.length = stmtCount n)
    ∧ (∀ (acc : Int) (codes : List Int),
        lastFail acc codes = (codes.filter fun c => c != EOK).getLastD acc)
    ∧ (∀ codes : List Int, lastFail EOK codes = EOK ↔ ∀ c ∈ codes, c = EOK) :=
  ⟨fun fuel st v scr nx => run_pcsGo_eq_spec cm W g fuel EOK st (.stmt v scr nx),
    stmtCodesSpec_length cm W g,
    fun acc codes => lastFail_filter codes acc,
    lastFail_eok_iff⟩

/-- C7 (witness): a concrete two-statement list whose first statement
fails with `ENOTSUP` (unmapped operation code 0) and whose second fails
with `EINVAL` (`Equals` with NULL operands): both statements are
processed and the list's code is the most recent failure, `EINVAL`. -/
theorem C7_compound_best_effort_witness :
    (ProcessCompoundStatement trivCM unitWorld 0 9 (st0 ())
      (.stmt (.var (d16 VA_ILLEGAL 0) .null .null) none
        (.stmt (.var (d16 VA_EQUALS 0) .null .null) none .null))).map
      (fun o => o.1) = some EINVAL := by
  rw [(C7_compound_best_effort trivCM unitWorld 0).1 9 (st0 ())]
  decide

/-- C8 (counterexample): the claim states that deleting an in-range timer
id whose slot is empty returns the not-found error.  It does not: the code
passes the stored null handle to `timer_delete` and returns that call's
error code — under the modelled glibc behaviour (`EINVAL` for an invalid
timer handle), deleting unregistered id 5 returns `EINVAL`, not `ENOENT`
(the 16-bit result value is 0 as claimed). -/
theorem C8_empty_slot_not_not_found :
    (VADeleteTimer trivCM timerWorld (st0 ()) {}
      (.var (d16 VA_NUM 5) .null .null) .null).map
      (fun o => (o.1, o.2.1.obj.ui)) = some (EINVAL, 0)
    ∧ EINVAL ≠ ENOENT := by
  decide

/-- C8 (amended): deleting a timer id outside the valid range `(0, 255)`
returns `ENOENT` with the 16-bit result value 0 and no state change; an
in-range id with an empty slot is *not* reported as not-found: the stored
null handle 0 is handed to the OS `timer_delete` call and the operation
returns `EOK` if that call succeeds and its `errno` code otherwise, with
the 16-bit result value 1 exactly on success. -/
theorem C8_delete_unregistered {σ : Type} (cm : CHost) (W : World σ)
    (st : EvalState σ) (d ld : VarData) (ll lr r : Node) :
    ((ld.obj.ui = 0 ∨ MAX_TIMERS ≤ ld.obj.ui) →
      VADeleteTimer cm W st d (.var ld ll lr) r =
        some (ENOENT,
          { d with obj := { d.obj with ui := 0, type := .uint16, len := 2 } },
          st))
    ∧ (0 < ld.obj.ui → ld.obj.ui < MAX_TIMERS → st.timers ld.obj.ui = 0 →
      VADeleteTimer cm W st d (.var ld ll lr) r =
        some ((if (W.osTimerDelete st.ext 0).1 = 0 then EOK
               else (W.osTimerDelete st.ext 0).1),
          { d with obj := { d.obj with
              ui := (if (if (W.osTimerDelete st.ext 0).1 = 0 then EOK
                         else (W.osTimerDelete st.ext 0).1) = EOK then 1 else 0),
              type := .uint16, len := 2 } },
          { st with ext := (W.osTimerDelete st.ext 0).2 })) := by
  constructor
  · intro h
    have hc : ¬ (0 < ld.obj.ui ∧ ld.obj.ui < MAX_TIMERS) := by
      rcases h with h | h <;> simp [MAX_TIMERS] at h ⊢ <;> omega
    simp [VADeleteTimer, hc, ENOENT, EOK]
  · intro h1 h2 h3
    have hc : 0 < ld.obj.ui ∧ ld.obj.ui < MAX_TIMERS := ⟨h1, h2⟩
    simp [VADeleteTimer, hc, h3]

/-- C8 (witness): the amended theorem at concrete inputs — id 0 is
`ENOENT` with result value 0, and unregistered in-range id 5 under the
glibc-like world returns `timer_delete`'s `EINVAL`. -/
theorem C8_delete_unregistered_witness :
    VADeleteTimer trivCM timerWorld (st0 ()) {}
      (.var (d16 VA_NUM 0) .null .null) .null =
      some (ENOENT,
        { obj := { ui := 0, type := .uint16, len := 2 } }, st0 ())
    ∧ VADeleteTimer trivCM timerWorld (st0 ()) {}
        (.var (d16 VA_NUM 5) .null .null) .null =
      some ((if (timerWorld.osTimerDelete (st0 ()).ext 0).1 = 0 then EOK
             else (timerWorld.osTimerDelete (st0 ()).ext 0).1),
        { obj := { ui := (if (if (timerWorld.osTimerDelete (st0 ()).ext 0).1 = 0
                              then EOK
                              else (timerWorld.osTimerDelete (st0 ()).ext 0).1) =
                            EOK then 1 else 0),
                   type := .uint16, len := 2 } },
        { st0 () with ext := (timerWorld.osTimerDelete (st0 ()).ext 0).2 }) :=
  ⟨(C8_delete_unregistered trivCM timerWorld (st0 ()) {} (d16 VA_NUM 0)
      .null .null .null).1 (Or.inl rfl),
    (C8_delete_unregistered trivCM timerWorld (st0 ()) {} (d16 VA_NUM 5)
      .null .null .null).2 (by decide) (by decide) rfl⟩

/-- C9 (counterexample): the claim states that the recorded buffer
capacity of every string value is at least the recorded content length
plus one.  `NewString` violates it: it records `bufsize = strlen(str)`
(although its `strdup` allocates one byte more), so the constant string
"a" has recorded length 1 and recorded capacity 1 < 2. -/
theorem C9_newstring_bufsize_understated :
    ¬ ((NewString ("a")).obj.len + 1 ≤ (NewString ("a")).bufsize) := by
  decide

/-! helper for C9: the capacity `AllocateString` records on success covers
the requested length plus a NUL -/

theorem AllocateString_bufsize (v : VarData) (len : Nat)
    (h : (AllocateString v len).1 = EOK) :
    len + 1 ≤ (AllocateString v len).2.bufsize := by
  by_cases htype : v.obj.type = .str
  · cases hs : v.obj.str with
    | some s =>
      simp only [AllocateString, htype, hs, if_true]
      split_ifs <;> simp <;> omega
    | none =>
      simp only [AllocateString, htype, hs, if_true]
      split_ifs <;> simp <;> omega
  · simp only [AllocateString, htype, if_false] at h
    exact absurd h (by decide)

/-- C9 (amended): the recorded capacity is at least the recorded content
length plus one for every string value produced on the success paths of
`AllocateString` (relative to the requested length), `AssignString`,
`ConcatString` and `AddString`; `NewString`, however, records a capacity
equal to the content length — one byte less than claimed (its underlying
`strdup` allocation is `length + 1`). -/
theorem C9_capacity_invariant :
    (∀ (v : VarData) (len : Nat), (AllocateString v len).1 = EOK →
      len + 1 ≤ (AllocateString v len).2.bufsize)
    ∧ (∀ (res ld rd : VarData) (out : Int × VarData × VarData),
      AssignString res ld rd = some out → out.1 = EOK →
        out.2.1.obj.len + 1 ≤ out.2.1.bufsize ∧
        out.2.2.obj.len + 1 ≤ out.2.2.bufsize)
    ∧ (∀ (res ld rd : VarData) (out : Int × VarData × VarData),
      ConcatString res ld rd = some out → out.1 = EOK →
        out.2.1.obj.len + 1 ≤ out.2.1.bufsize ∧
        out.2.2.obj.len + 1 ≤ out.2.2.bufsize)
    ∧ (∀ (res ld rd : VarData) (out : Int × VarData),
      AddString res ld rd = some out → out.1 = EOK →
        out.2.obj.len + 1 ≤ out.2.bufsize)
    ∧ (∀ s : String, (NewString s).bufsize = (NewString s).obj.len) := by
  refine ⟨AllocateString_bufsize, ?_, ?_, ?_, fun s => rfl⟩
  · intro res ld rd out h hok
    unfold AssignString at h
    by_cases ht : ld.obj.type = .str ∧ rd.obj.type = .str
    · rw [if_pos ht] at h
      dsimp only at h
      have hA := AllocateString_bufsize ld rd.obj.len
      rcases hp : AllocateString ld rd.obj.len with ⟨rc, ld1⟩
      rw [hp] at h hA
      dsimp only at h hA
      by_cases hrc : rc = EOK
      · rw [if_pos hrc] at h
        cases hs : rd.obj.str with
        | some s =>
          rw [hs] at h
          dsimp only at h
          by_cases hl : s.length = rd.obj.len
          · rw [if_pos hl] at h
            cases h
            exact ⟨hA hrc, hA hrc⟩
          · rw [if_neg hl] at h
            cases h
        | none =>
          rw [hs] at h
          dsimp only at h
          by_cases hl : rd.obj.len = 0
          · rw [if_pos hl] at h
            cases h
            constructor <;> simp [hl] <;> omega
          · rw [if_neg hl] at h
            cases h
      · rw [if_neg hrc] at h
        cases h
        exact absurd hok hrc
    · rw [if_neg ht] at h
      cases h
      simp [ENOTSUP, EOK] at hok
  · intro res ld rd out h hok
    unfold ConcatString at h
    by_cases ht : ld.obj.type = .str ∧ rd.obj.type = .str
    · rw [if_pos ht] at h
      cases hls : ld.obj.str with
      | none => rw [hls] at h; cases h; simp [ENOTSUP, EOK] at hok
      | some ls =>
        cases hrs : rd.obj.str with
        | none => rw [hls, hrs] at h; cases h; simp [ENOTSUP, EOK] at hok
        | some rs =>
          rw [hls, hrs] at h
          dsimp only at h
          have hA := AllocateString_bufsize ld (ld.obj.len + rd.obj.len)
          rcases hp : AllocateString ld (ld.obj.len + rd.obj.len) with ⟨rc, ld1⟩
          rw [hp] at h hA
          dsimp only at h hA
          by_cases hrc : rc = EOK
          · rw [if_pos hrc] at h
            by_cases hl : ls.length = ld.obj.len ∧ rs.length = rd.obj.len
            · rw [if_pos hl] at h
              cases h
              exact ⟨hA hrc, hA hrc⟩
            · rw [if_neg hl] at h
              cases h
          · rw [if_neg hrc] at h
            cases h
            exact absurd hok hrc
    · rw [if_neg ht] at h
      cases h
      simp [ENOTSUP, EOK] at hok
  · intro res ld rd out h hok
    unfold AddString at h
    by_cases ht : ld.obj.type = .str ∧ rd.obj.type = .str
    · rw [if_pos ht] at h
      cases hls : ld.obj.str with
      | none => rw [hls] at h; cases h; simp [ENOTSUP, EOK] at hok
      | some ls =>
        cases hrs : rd.obj.str with
        | none => rw [hls, hrs] at h; cases h; simp [ENOTSUP, EOK] at hok
        | some rs =>
          rw [hls, hrs] at h
          dsimp only at h
          have hA := AllocateString_bufsize
            { res with obj := { res.obj with type := .str } }
            (ld.obj.len + rd.obj.len)
          rcases hp : AllocateString
              { res with obj := { res.obj with type := .str } }
              (ld.obj.len + rd.obj.len) with ⟨rc, res2⟩
          rw [hp] at h hA
          dsimp only at h hA
          by_cases hrc : rc = EOK
          · rw [if_pos hrc] at h
            by_cases hl : ls.length = ld.obj.len ∧ rs.length = rd.obj.len
            · rw [if_pos hl] at h
              cases h
              exact hA hrc
            · rw [if_neg hl] at h
              cases h
          · rw [if_neg hrc] at h
            cases h
            exact absurd hok hrc
    · rw [if_neg ht] at h
      cases h
      simp [ENOTSUP, EOK] at hok

/-- C9 (witness): the amended invariant evaluated concretely — assigning
the 3-byte string "abc" into an empty string variable succeeds and
records length 3 with capacity 32 ≥ 4 on both the result and the left
variable. -/
theorem C9_capacity_invariant_witness :
    AssignString { obj := { type := .str } } { obj := { type := .str } }
        { obj := { type := .str, len := 3, str := some ("abc") } } =
      some (EOK,
        { obj := { type := .str, len := 3, str := some ("abc") }, bufsize := 32 },
        { obj := { type := .str, len := 3, str := some ("abc") }, bufsize := 32 })
    ∧ (3 + 1 ≤ 32 ∧ 3 + 1 ≤ 32) := by
  refine ⟨by decide, ?_⟩
  have h := (C9_capacity_invariant.2.1 { obj := { type := .str } }
    { obj := { type := .str } }
    { obj := { type := .str, len := 3, str := some ("abc") } }
    (EOK,
      { obj := { type := .str, len := 3, str := some ("abc") }, bufsize := 32 },
      { obj := { type := .str, len := 3, str := some ("abc") }, bufsize := 32 })
    (by decide) rfl)
  exact h

/-- C10: the divide operators perform the integer division unconditionally
— for integer-typed operands there is no guard on a zero right operand and
no error code for it: with a non-zero divisor the quotient is produced
with `EOK` (and, for `DivEquals`, written into the left operand and the
store-bound write-back tail applied), while a zero divisor makes the
operation undefined (modelled as `none`): definedness requires the
precondition right ≠ 0. -/
theorem C10_divide_no_zero_guard {σ : Type} (cm : CHost) (W : World σ)
    (st : EvalState σ) (d ld rd : VarData) (ll lr rl rr : Node) :
    (ld.obj.type = .uint16 →
      (Divide cm d (.var ld ll lr) (.var rd rl rr) = none ↔ rd.obj.ui = 0))
    ∧ (ld.obj.type = .uint16 → rd.obj.ui ≠ 0 →
      Divide cm d (.var ld ll lr) (.var rd rl rr) =
        some (EOK, store16 d (ld.obj.ui / rd.obj.ui)))
    ∧ (ld.obj.type = .uint32 →
      (Divide cm d (.var ld ll lr) (.var rd rl rr) = none ↔ rd.obj.ul = 0))
    ∧ (ld.obj.type = .uint32 → rd.obj.ul ≠ 0 →
      Divide cm d (.var ld ll lr) (.var rd rl rr) =
        some (EOK, store32 d (ld.obj.ul / rd.obj.ul)))
    ∧ (ld.obj.type = .uint16 →
      (DivEquals cm W st d (.var ld ll lr) (.var rd rl rr) = none ↔
        rd.obj.ui = 0))
    ∧ (ld.obj.type = .uint16 → rd.obj.ui ≠ 0 →
      DivEquals cm W st d (.var ld ll lr) (.var rd rl rr) =
        some ⟨(setSysvar W st EOK
                { ld with obj := { ld.obj with ui := ld.obj.ui / rd.obj.ui } }).1,
              { d with obj := { d.obj with ui := ld.obj.ui / rd.obj.ui,
                                           type := .uint16, len := 2 } },
              .var { ld with obj := { ld.obj with ui := ld.obj.ui / rd.obj.ui } } ll lr,
              .var rd rl rr,
              (setSysvar W st EOK
                { ld with obj := { ld.obj with ui := ld.obj.ui / rd.obj.ui } }).2⟩)
    ∧ (ld.obj.type = .uint32 →
      (DivEquals cm W st d (.var ld ll lr) (.var rd rl rr) = none ↔
        rd.obj.ul = 0))
    ∧ (ld.obj.type = .uint32 → rd.obj.ul ≠ 0 →
      DivEquals cm W st d (.var ld ll lr) (.var rd rl rr) =
        some ⟨(setSysvar W st EOK
                { ld with obj := { ld.obj with ul := ld.obj.ul / rd.obj.ul } }).1,
              { d with obj := { d.obj with ul := ld.obj.ul / rd.obj.ul,
                                           type := .uint32, len := 4 } },
              .var { ld with obj := { ld.obj with ul := ld.obj.ul / rd.obj.ul } } ll lr,
              .var rd rl rr,
              (setSysvar W st EOK
                { ld with obj := { ld.obj with ul := ld.obj.ul / rd.obj.ul } }).2⟩) := by
  refine ⟨?_, ?_, ?_, ?_, ?_, ?_, ?_, ?_⟩
  · intro ht
    by_cases hz : rd.obj.ui = 0 <;> simp [Divide, args2, ht, hz]
  · intro ht hz
    simp [Divide, args2, ht, hz]
  · intro ht
    by_cases hz : rd.obj.ul = 0 <;> simp [Divide, args2, ht, hz]
  · intro ht hz
    simp [Divide, args2, ht, hz]
  · intro ht
    by_cases hz : rd.obj.ui = 0 <;> simp [DivEquals, args2, ht, hz]
  · intro ht hz
    simp [DivEquals, args2, ht, hz, Node.withData]
  · intro ht
    by_cases hz : rd.obj.ul = 0 <;> simp [DivEquals, args2, ht, hz]
  · intro ht hz
    simp [DivEquals, args2, ht, hz, Node.withData]

/-- C10 (witness): division at concrete integer operands — 16-bit 6 / 3
yields 2 with `EOK`, and 16-bit 6 / 0 is undefined (`none`), with the
type hypotheses discharged. -/
theorem C10_divide_no_zero_guard_witness :
    Divide trivCM {} (.var (d16 VA_NUM 6) .null .null)
        (.var (d16 VA_NUM 3) .null .null) =
      some (EOK, store16 {} 2)
    ∧ Divide trivCM {} (.var (d16 VA_NUM 6) .null .null)
        (.var (d16 VA_NUM 0) .null .null) = none :=
  ⟨(C10_divide_no_zero_guard trivCM unitWorld (st0 ()) {} (d16 VA_NUM 6)
      (d16 VA_NUM 3) .null .null .null .null).2.1 rfl (by decide),
    ((C10_divide_no_zero_guard trivCM unitWorld (st0 ()) {} (d16 VA_NUM 6)
      (d16 VA_NUM 0) .null .null .null .null).1 rfl).mpr rfl⟩

end VarAction
